import Mathlib

/-!
Verification development for the reference_service repository.

Shallow embedding of the parts of `referencesrv/parser/crf.py`,
`referencesrv/resolver/authors.py` and `referencesrv/resolver/common.py`
needed to settle the frozen claims.  Python floats are modelled as `ℚ`,
Python lists as `List`, Python dicts as association lists, and fallible
Python code (exceptions) as `Except`/`Option`.  Regular-expression
machinery that a claim does not depend on is passed in as an explicit
function parameter, mirroring the fact that the regex engine is external
to the code under scrutiny; regexes a claim does depend on are
implemented as character-level scanners.
-/

/- ------------------------------------------------------------------ -/
/- Section 1: authors.py, get_author_pattern (lines 81-143)           -/
/- ------------------------------------------------------------------ -/

/-- The four author-shape regexes of authors.py in the order of the
`patterns` list at line 96: `patterns[0] = TRAILING_INIT_PAT`,
`patterns[1] = LEADING_INIT_PAT`, `patterns[2] = TRAILING_FULL_PAT`,
`patterns[3] = LEADING_FULL_PAT`. -/
inductive AuthorShape where
  | trailingInit
  | leadingInit
  | trailingFull
  | leadingFull
deriving DecidableEq, Repr

/-- The `patterns` list of get_author_pattern (authors.py line 96). -/
def authorPatterns : List AuthorShape :=
  [AuthorShape.trailingInit, AuthorShape.leadingInit,
   AuthorShape.trailingFull, AuthorShape.leadingFull]

/-- Python `max(lengths)` for a list of naturals (empty list never occurs;
the code always passes four entries). -/
def listMax (l : List Nat) : Nat := l.foldr max 0

/-- Python `min(indices)` (guarded non-empty at its one use site). -/
def listMin : List Nat → Nat
  | [] => 0
  | x :: xs => xs.foldl min x

/-- the list `indices_max` of authors.py line 109: all indices whose
match length equals the maximum. -/
def indicesMax (lengths : List Nat) : List Nat :=
  (List.range lengths.length).filter (fun i => lengths.getD i 0 = listMax lengths)

/-- the list `indices_match` of authors.py line 111: all indices with a
non-zero match length. -/
def indicesMatch (lengths : List Nat) : List Nat :=
  (List.range lengths.length).filter (fun i => 0 < lengths.getD i 0)

/-- the 4-bit on/off encoding of authors.py line 119:
`int(''.join(['1' if i in indices_max else '0' for i in range(4)]), 2)` —
index 0 is the most significant bit. -/
def onOffValue (im : List Nat) : Nat :=
  (if 0 ∈ im then 8 else 0) + (if 1 ∈ im then 4 else 0) +
  (if 2 ∈ im then 2 else 0) + (if 3 ∈ im then 1 else 0)

/-- the decision logic of get_author_pattern (authors.py lines 109-143),
parameterized over the four per-shape matched lengths (the regex findall
and get_length_matched_authors computation that produce them is external
to this decision).  `none` models the Python `return None`. -/
def get_author_pattern_choice (lengths : List Nat) : Option AuthorShape :=
  if (indicesMax lengths).length ≠ 1 then
    if ((indicesMatch lengths).length : Int) - ((indicesMax lengths).length : Int) = 1 then
      some (authorPatterns.getD (listMin (indicesMatch lengths)) AuthorShape.trailingInit)
    else if onOffValue (indicesMax lengths) ∈ [0, 6, 9, 12, 15] then
      none
    else if onOffValue (indicesMax lengths) = 3 then
      some AuthorShape.leadingFull
    else if onOffValue (indicesMax lengths) ∈ [5, 7] then
      some AuthorShape.leadingInit
    else if onOffValue (indicesMax lengths) ∈ [10, 11] then
      some AuthorShape.trailingInit
    else if onOffValue (indicesMax lengths) = 13 then
      some AuthorShape.leadingFull
    else if onOffValue (indicesMax lengths) = 14 then
      some AuthorShape.trailingFull
    else
      some (authorPatterns.getD ((indicesMax lengths).headD 0) AuthorShape.trailingInit)
  else
    some (authorPatterns.getD ((indicesMax lengths).headD 0) AuthorShape.trailingInit)

/- ------------------------------------------------------------------ -/
/- Section 2: common.py, Evidences (lines 31-254) and                 -/
/-            authors.py, add_author_evidence (lines 468-509)         -/
/- ------------------------------------------------------------------ -/

/-- the Evidences accumulator of common.py.  `score` is the cached
aggregate (`None` = not computed), `min_score`/`max_score` come from the
`EVIDENCE_SCORE_RANGE` configuration. -/
structure Evidences where
  evidences : List ℚ
  labels : List String
  score : Option ℚ
  min_score : ℚ
  max_score : ℚ
deriving Repr

/-- Evidences.add_evidence (common.py lines 171-183): the Python
`assert self.min_score <= evidence <= self.max_score` is modelled as an
`Except.error` (an AssertionError escapes the function). -/
def Evidences.add_evidence (e : Evidences) (evidence : ℚ) (label : String) :
    Except String Evidences :=
  if e.min_score ≤ evidence ∧ evidence ≤ e.max_score then
    Except.ok { e with score := none,
                       evidences := e.evidences ++ [evidence],
                       labels := e.labels ++ [label] }
  else
    Except.error "AssertionError"

/-- Evidences.__add__ (common.py lines 142-153): every score of `other`
is re-asserted against the receiver's range before the lists are
concatenated. -/
def Evidences.combine (e other : Evidences) : Except String Evidences :=
  if ∀ ev ∈ other.evidences, e.min_score ≤ ev ∧ ev ≤ e.max_score then
    Except.ok { e with score := none,
                       evidences := e.evidences ++ other.evidences,
                       labels := e.labels ++ other.labels }
  else
    Except.error "AssertionError"

/-- the tuple returned by count_matching_authors (authors.py line 465). -/
structure AuthorMatchStats where
  missing_in_ref : ℕ
  missing_in_ads : ℕ
  matching_authors : ℕ
  first_author_missing : Bool

/-- add_author_evidence (authors.py lines 468-509).  The
count_matching_authors output is passed in as `stats` (its regex and
edit-distance internals are external to this claim) and Python's
`round(x, 2)` as `pyround2`; `factor` is the configured
`MISSING_FIRST_AUTHOR_FACTOR`.  Note the clamp
`max(range[0], min(range[1], score))` applied before add_evidence. -/
def add_author_evidence (factor : ℚ) (pyround2 : ℚ → ℚ)
    (stats : AuthorMatchStats) (ev : Evidences)
    (ref_authors : String) (ads_authors : List String) (has_etal : Bool) :
    Except String Evidences :=
  let ra := ref_authors.replace "-" " "
  if ra.length = 0 ∨ ads_authors.length = 0 then
    Except.ok ev
  else
    let normalizer : ℚ :=
      if has_etal then ((stats.matching_authors + stats.missing_in_ads : ℕ) : ℚ)
      else ((ads_authors.length : ℕ) : ℚ)
    let matching : ℚ :=
      if stats.first_author_missing then (stats.matching_authors : ℚ) * factor
      else (stats.matching_authors : ℚ)
    let score : ℚ :=
      if normalizer ≠ 0 then pyround2 ((matching - (stats.missing_in_ads : ℚ)) / normalizer)
      else 0
    ev.add_evidence (max ev.min_score (min ev.max_score score)) "authors"

/- ------------------------------------------------------------------ -/
/- Section 3: authors.py, get_author_last_name_only (lines 382-392)   -/
/- ------------------------------------------------------------------ -/

/-- Python `[1::2]`: every second element starting from index 1. -/
def everyOtherOdd : List String → List String
  | [] => []
  | [_] => []
  | _ :: y :: rest => y :: everyOtherOdd rest

/-- Python `str.split()`: whitespace-separated words, empties dropped. -/
def pysplit (s : String) : List String :=
  (s.split (fun c => c.isWhitespace)).filter (fun w => w ≠ "")

/-- the try-branch of get_author_last_name_only (authors.py line 389):
lowercase then de-hyphenate every LAST_NAME_PAT.findall result.  The
last-name grammar itself is passed in as `findall`; `re.findall` is a
total operation, so the branch is modelled as always returning `ok`. -/
def get_author_last_name_only_try (findall : String → List String) (s : String) :
    Except String (List String) :=
  Except.ok ((findall s).map (fun lastname => lastname.toLower.replace "-" " "))

/-- the except-Undecidable branch of get_author_last_name_only
(authors.py line 392): split every match into words, lowercase, and keep
every second one. -/
def get_author_last_name_only_fb (findall : String → List String) (s : String) :
    List String :=
  everyOtherOdd (((findall s).flatMap (fun name => pysplit name)).map
    (fun single_name => single_name.toLower))

/-- get_author_last_name_only (authors.py lines 382-392): the try/except
control flow, with the except arm taken only when the try body signals
Undecidable. -/
def get_author_last_name_only (findall : String → List String) (s : String) :
    List String :=
  match get_author_last_name_only_try findall s with
  | Except.ok r => r
  | Except.error _ => get_author_last_name_only_fb findall s

/- ------------------------------------------------------------------ -/
/- Section 4: crf.py, CRFClassifier.create_crf (lines 194-219)        -/
/- ------------------------------------------------------------------ -/

/-- the `while (score <= 0.90) and (num_tries > 0)` loop of create_crf
(crf.py lines 207-218).  `attempt k` is the outcome of the k-th
fit/evaluate attempt: `some q` is the held-out score, `none` an attempt
that raised (the exception is logged and swallowed, leaving `score`
unchanged).  Returns the final score and the number of attempts made. -/
def crf_fit_loop (attempt : ℕ → Option ℚ) : ℕ → ℚ → ℕ → ℚ × ℕ
  | 0, score, k => (score, k)
  | num_tries + 1, score, k =>
    if score ≤ 9/10 then
      crf_fit_loop attempt num_tries ((attempt k).getD score) (k + 1)
    else
      (score, k)

/-- `num_tries = 10 if generate_fold else 1` (crf.py line 206). -/
def crf_num_tries (generate_fold : Bool) : ℕ :=
  if generate_fold then 10 else 1

/-- one full run of the create_crf acceptance loop starting from
`score = 0` (crf.py line 204). -/
def crf_run (generate_fold : Bool) (attempt : ℕ → Option ℚ) : ℚ × ℕ :=
  crf_fit_loop attempt (crf_num_tries generate_fold) 0 0

/-- create_crf's return value `(score > 0)` (crf.py line 219). -/
def create_crf (generate_fold : Bool) (attempt : ℕ → Option ℚ) : Bool :=
  decide (0 < (crf_run generate_fold attempt).1)

/-- Boolean success test for an Except value (Python: no exception was raised). -/
def exceptIsOk {ε α : Type} : Except ε α → Bool
  | Except.ok _ => true
  | Except.error _ => false

/- ------------------------------------------------------------------ -/
/- Section 5: crf.py, CRFClassifier.encoder / decoder (lines 277-305) -/
/- ------------------------------------------------------------------ -/

/-- one step of encoder's inner loop (crf.py lines 299-304).  The Python
dict `label_code` is modelled as an association list in insertion order;
state is `(label_code, numeric)` with `numeric` starting at -1.  A label
is skipped only when `numeric >= 0 and l in label_code`; otherwise
`numeric` is incremented and `label_code[l] = numeric` is recorded. -/
def encStep (st : List (String × ℤ) × ℤ) (l : String) : List (String × ℤ) × ℤ :=
  if 0 ≤ st.2 ∧ (st.1.find? (fun p => p.1 = l)).isSome then st
  else (st.1 ++ [(l, st.2 + 1)], st.2 + 1)

/-- CRFClassifier.encoder (crf.py lines 289-305): assigns a numeric code
to each distinct label string of the training corpus, iterating over the
references and over each reference's label sequence. -/
def encoder (labels : List (List String)) : List (String × ℤ) :=
  (labels.foldl (fun (st : List (String × ℤ) × ℤ) (label : List String) => label.foldl encStep st) ([], -1)).1

/-- the per-reference numeric label sequence built by format_training_data
(crf.py lines 1253-1255): `label_code[l]` for each label; `none` models
the Python KeyError on a label without a code. -/
def encodeSeq (label_code : List (String × ℤ)) : List String → Option (List ℤ)
  | [] => some []
  | l :: ls =>
    match (label_code.find? (fun p => p.1 = l)).map Prod.snd, encodeSeq label_code ls with
    | some c, some cs => some (c :: cs)
    | _, _ => none

/-- CRFClassifier.decoder (crf.py lines 277-287): for each numeric label,
the first dict key carrying that code; `none` models the Python
StopIteration when no key does. -/
def decoder (label_code : List (String × ℤ)) : List ℤ → Option (List String)
  | [] => some []
  | nl :: nls =>
    match (label_code.find? (fun p => p.2 = nl)).map Prod.fst, decoder label_code nls with
    | some k, some ks => some (k :: ks)
    | _, _ => none

/-- invariant of the encoder state: the counter tracks the dict size, the
codes are exactly 0..n-1 in insertion order, and no key repeats. -/
def encInv (st : List (String × ℤ) × ℤ) : Prop :=
  st.2 = (st.1.length : ℤ) - 1 ∧
  st.1.map Prod.snd = (List.range st.1.length).map Int.ofNat ∧
  (st.1.map Prod.fst).Nodup

/- ------------------------------------------------------------------ -/
/- Section 6: generic string helpers for the regex scanners            -/
/- ------------------------------------------------------------------ -/

/-- Python `\w` word character (ASCII inputs). -/
def isWordChar (c : Char) : Bool := c.isAlphanum || c == '_'

/-- does `p` lead the list `s` (used for literal substring probes). -/
def leadsWith : List Char → List Char → Bool
  | [], _ => true
  | _ :: _, [] => false
  | p :: ps, s :: ss => p == s && leadsWith ps ss

/-- does `sub` occur anywhere in `s` (Python `re.search` on a literal). -/
def hasSub (s sub : List Char) : Bool :=
  match s with
  | [] => sub.isEmpty
  | _ :: rest => leadsWith sub s || hasSub rest sub

/-- substring test on strings. -/
def strHasSub (s sub : String) : Bool := hasSub s.toList sub.toList

/-- Python `s.split(sub, 1)[0]`: everything before the first occurrence of
`sub` (the whole string when `sub` is absent). -/
def takeBeforeAux : List Char → List Char → List Char
  | [], _ => []
  | c :: rest, sub =>
    if leadsWith sub (c :: rest) then [] else c :: takeBeforeAux rest sub

/-- Python `str.isdigit` (ASCII): non-empty and all digits. -/
def pyIsDigit (s : String) : Bool := !s.isEmpty && s.toList.all Char.isDigit

/-- Python `str.isnumeric` on ASCII input coincides with isdigit. -/
def pyIsNumeric (s : String) : Bool := pyIsDigit s

/-- Python `str.isalpha` (ASCII): non-empty and all letters. -/
def pyIsAlpha (s : String) : Bool := !s.isEmpty && s.toList.all Char.isAlpha

/-- Python `int(s)` for a digit string (every call site is guarded by
isnumeric, so the accumulator semantics only ever sees digits). -/
def strToNatD (s : String) : ℕ :=
  s.toList.foldl (fun acc c => 10 * acc + (c.toNat - 48)) 0

/-- ASCII lowercase conversion (Python `str.lower` on ASCII input). -/
def charLower (c : Char) : Char :=
  if 'A' ≤ c ∧ c ≤ 'Z' then Char.ofNat (c.toNat + 32) else c

/-- ASCII lowercase on strings. -/
def strLower (s : String) : String := String.mk (s.toList.map charLower)

/-- Python `list(OrderedDict.fromkeys(l))`: duplicates dropped, first
occurrences kept in order. -/
def dedupKeepFirst (l : List String) : List String :=
  l.foldl (fun acc x => if acc.contains x then acc else acc ++ [x]) []

/- ------------------------------------------------------------------ -/
/- Section 7: crf.py, YEAR_EXTRACTOR (line 133) and the year-selection -/
/- logic of CRFClassifierText.identify_numeric_tokens (lines 1531-1544)-/
/- ------------------------------------------------------------------ -/

/-- first character of YEAR_PATTERN `[12][089]\d\d` (crf.py line 124). -/
def yearStart (c : Char) : Bool := c == '1' || c == '2'

/-- second character class of YEAR_PATTERN. -/
def yearSecond (c : Char) : Bool := c == '0' || c == '8' || c == '9'

/-- trailing delimiter class `[)\s.,]` of YEAR_EXTRACTOR (crf.py 133). -/
def yearDelim (c : Char) : Bool := c == ')' || c.isWhitespace || c == '.' || c == ','

/-- a token of shape `[12][089]\d\d[a-z]?` — the captured group of
YEAR_EXTRACTOR. -/
def yearShape (y : String) : Bool :=
  match y.toList with
  | [c1, c2, c3, c4] =>
    yearStart c1 && yearSecond c2 && c3.isDigit && c4.isDigit
  | [c1, c2, c3, c4, c5] =>
    yearStart c1 && yearSecond c2 && c3.isDigit && c4.isDigit && c5.isLower
  | _ => false

/-- attempt to read a `[12][089]\d\d[a-z]?` token at the head of the
input (greedy on the optional letter); returns the token and the
remaining input. -/
def yearTok : List Char → Option (List Char × List Char)
  | c1 :: c2 :: c3 :: c4 :: c5 :: rest =>
    if yearShape (String.mk [c1, c2, c3, c4, c5]) then
      some ([c1, c2, c3, c4, c5], rest)
    else if yearShape (String.mk [c1, c2, c3, c4]) then
      some ([c1, c2, c3, c4], c5 :: rest)
    else none
  | [c1, c2, c3, c4] =>
    if yearShape (String.mk [c1, c2, c3, c4]) then some ([c1, c2, c3, c4], [])
    else none
  | _ => none

/-- attempt to match `[12][089]\d\d[a-z]?[)\s.,]+` at the head of the
input (the `\b` to the left is checked by the caller); returns the
captured year token and the input after the greedy delimiter run. -/
def yearMatchAt (cs : List Char) : Option (List Char × List Char) :=
  match yearTok cs with
  | some (tok, rest2) =>
    match rest2 with
    | d :: rest3 =>
      if yearDelim d then some (tok, rest3.dropWhile yearDelim) else none
    | [] => none
  | none => none

/-- re.findall for YEAR_EXTRACTOR: scan left to right, tracking whether
the previous character is a word character (for the `\b`); the optional
`[(\s]*` leading class never affects the captured group.  `fuel` bounds
the recursion (call with the input length). -/
def yearScanFuel : ℕ → List Char → Bool → List String
  | 0, _, _ => []
  | _ + 1, [], _ => []
  | fuel + 1, c :: rest, prevWord =>
    if !prevWord then
      match yearMatchAt (c :: rest) with
      | some (tok, rest2) => String.mk tok :: yearScanFuel fuel rest2 false
      | none => yearScanFuel fuel rest (isWordChar c)
    else yearScanFuel fuel rest (isWordChar c)

/-- the deduplicated year candidate list of crf.py line 1533. -/
def year_candidates (ref : String) : List String :=
  dedupKeepFirst (yearScanFuel ref.toList.length ref.toList false)

/-- the year-selection logic of crf.py lines 1534-1541: with several
candidates prefer the first one enclosed in parentheses in the reference;
if still several, keep only numeric candidates within
[year_earliest = 1400, year_now]. -/
def select_year (cands : List String) (ref : String) (year_now : ℕ) : List String :=
  if 1 < cands.length then
    let cands2 :=
      match cands.find? (fun y => strHasSub ref ("(" ++ y ++ ")")) with
      | some y => [y]
      | none => cands
    if 1 < cands2.length then
      cands2.filter (fun y => pyIsNumeric y && (1400 ≤ strToNatD y && strToNatD y ≤ year_now))
    else cands2
  else cands

/-- the candidate list after selection for a raw reference string. -/
def identify_year (ref : String) (year_now : ℕ) : List String :=
  select_year (year_candidates ref) ref year_now

/-- the accepted year of crf.py lines 1542-1544: the single surviving
candidate; `none` when zero or several survive (in which case the Python
code leaves a list in the 'year' slot instead of a string). -/
def picked_year (ref : String) (year_now : ℕ) : Option String :=
  if (identify_year ref year_now).length = 1 then
    some ((identify_year ref year_now).getD 0 "")
  else none

/- ------------------------------------------------------------------ -/
/- Section 8: crf.py, the leftover-numeric guessing block of           -/
/- CRFClassifierText.identify_numeric_tokens (lines 1585-1638)         -/
/- ------------------------------------------------------------------ -/

/-- CRFClassifier.IDENTIFYING_WORDS (crf.py lines 33-37), in order. -/
def IDENTIFYING_WORDS : List (String × List String) :=
  [("ARXIV_IDENTIFIER", ["arxiv"]), ("EDITOR_IDENTIFIER", ["editor", "eds", "ed"]),
   ("ET_AL", ["et", "al"]), ("DOI_IDENTIFIER", ["doi"]), ("ISSUE_IDENTIFIER", ["issue"]),
   ("ISSN__IDENTIFIER", ["issn"]), ("PAGE_IDENTIFIER", ["page", "pages", "pp", "p"]),
   ("VERSION_IDENTIFIER", ["version"]), ("VOLUME_IDENTIFIER", ["volume", "vol"]),
   ("ISBN_IDENTIFIER", ["isbn"]), ("ASCL_IDENTIFIER", ["ascl"])]

/-- CRFClassifier.is_identifying_word (crf.py lines 863-874): 1-based
index of the first identifying-word group containing the lowercased word,
0 when the word is not alphabetic or not found. -/
def is_identifying_word (ref_data_word : String) : ℕ :=
  if pyIsAlpha ref_data_word then
    match IDENTIFYING_WORDS.findIdx? (fun g => g.2.contains (strLower ref_data_word)) with
    | some i => i + 1
    | none => 0
  else 0

/-- CRFClassifier.concatenate (crf.py lines 388-397). -/
def concatenate (token_1 token_2 : String) : String :=
  if token_2.length = 0 then token_1
  else token_1 ++ (if token_1.length > 0 then " " else "") ++ token_2

/-- the volume/page/issue/unknown quadruple produced by the guessing
block (the year is fixed before this point). -/
structure NumericGuess where
  volume : String
  page : String
  issue : String
  unknown : String
deriving Repr, DecidableEq

/-- the positional-inference chain of crf.py lines 1602-1636, applied to
the leftover "mostly digit" tokens after pruning: at most 3 leftovers are
assigned by the fixed priority table, the unresolvable cases of at most 3
are pushed to `unknown`, and more than 3 leftovers fall through the outer
`if len(the_rest) <= 3` with no else — they are silently dropped. -/
def guess_leftover_numerics (volume page issue unknown : String)
    (the_rest : List String) : NumericGuess :=
  if the_rest.length ≤ 3 then
    if the_rest.length = 3 ∧ volume.length = 0 ∧ issue.length = 0 ∧ page.length = 0 then
      { volume := the_rest.getD 0 "", issue := the_rest.getD 1 "",
        page := the_rest.getD 2 "", unknown := unknown }
    else if the_rest.length = 2 ∧ (volume.length = 0 ∨ page.length = 0) then
      if volume.length = 0 then
        if page.length = 0 then
          { volume := the_rest.getD 0 "", issue := issue,
            page := the_rest.getD 1 "", unknown := unknown }
        else
          { volume := the_rest.getD 0 "", issue := the_rest.getD 1 "",
            page := page, unknown := unknown }
      else if page.length = 0 then
        { volume := volume, issue := the_rest.getD 0 "",
          page := the_rest.getD 1 "", unknown := unknown }
      else
        { volume := volume, issue := issue, page := page,
          unknown := concatenate unknown (" ".intercalate the_rest) }
    else if the_rest.length = 1 then
      if volume.length = 0 then
        { volume := the_rest.getD 0 "", page := page, issue := issue, unknown := unknown }
      else if page.length = 0 then
        { volume := volume, page := the_rest.getD 0 "", issue := issue, unknown := unknown }
      else
        { volume := volume, page := page, issue := the_rest.getD 0 "", unknown := unknown }
    else
      { volume := volume, page := page, issue := issue,
        unknown := concatenate unknown (" ".intercalate the_rest) }
  else
    { volume := volume, page := page, issue := issue, unknown := unknown }

/-- the full leftover block of crf.py lines 1585-1638: runs only when one
of volume/page/issue is still empty; accumulates unconsumed words into
`unknown`; when volume is empty, discards leading non-numeric leftovers
(Python's try/except around `next(...)`, `none` being the StopIteration
arm); then applies the positional table.  `remaining_words` stands for
`MATCH_A_WORD.findall(reference_str)` at line 1586. -/
def identify_leftover_numerics (volume page issue unknown : String)
    (the_rest remaining_words : List String) : NumericGuess :=
  if volume.length = 0 ∨ page.length = 0 ∨ issue.length = 0 then
    let unknown1 := concatenate unknown (" ".intercalate (remaining_words.filter
      (fun elem => !the_rest.contains elem && is_identifying_word elem == 0)))
    if 0 < the_rest.length then
      let pruned : List String × String :=
        if volume.length = 0 then
          match the_rest.findIdx? (fun elem => pyIsDigit elem) with
          | some idx =>
            (the_rest.drop idx,
             concatenate unknown1 (" ".intercalate (the_rest.filter
               (fun nn => !(the_rest.drop idx).contains nn))))
          | none => ([], concatenate unknown1 (" ".intercalate the_rest))
        else (the_rest, unknown1)
      guess_leftover_numerics volume page issue pruned.2 pruned.1
    else
      { volume := volume, page := page, issue := issue, unknown := unknown1 }
  else
    { volume := volume, page := page, issue := issue, unknown := unknown }

/- ------------------------------------------------------------------ -/
/- Section 9: crf.py, DOI_ID_EXTRACTOR (line 104) and                  -/
/- CRFClassifierText.extract_doi (lines 1472-1497)                     -/
/- ------------------------------------------------------------------ -/

/-- separator class `[\s\.\:]` of DOI_ID_EXTRACTOR. -/
def doiSep (c : Char) : Bool := c.isWhitespace || c == '.' || c == ':'

/-- body class `[\d\:\.\-\_\/\(\)A-Za-z\s]` of DOI_ID_EXTRACTOR. -/
def doiBody (c : Char) : Bool :=
  c.isDigit || c == ':' || c == '.' || c == '-' || c == '_' || c == '/' ||
  c == '(' || c == ')' || c.isAlpha || c.isWhitespace

/-- match `10\.\s*\d{4}[body]+` at the head of the input (the `\b` to the
left is the caller's duty); returns the consumed characters. -/
def doiCore : List Char → Option (List Char)
  | '1' :: '0' :: '.' :: rest =>
    let sp := rest.takeWhile (fun c => c.isWhitespace)
    match rest.dropWhile (fun c => c.isWhitespace) with
    | d1 :: d2 :: d3 :: d4 :: rest3 =>
      if d1.isDigit && d2.isDigit && d3.isDigit && d4.isDigit then
        let body := rest3.takeWhile doiBody
        if body.isEmpty then none
        else some ('1' :: '0' :: '.' :: (sp ++ [d1, d2, d3, d4] ++ body))
      else none
    | _ => none
  | _ => none

/-- try DOI_ID_EXTRACTOR at one position, in the regex's preference
order: prefix `doi` then `DOI` then empty, separator count 2 then 1 then
0.  A `doi`/`DOI` prefix with no separator can never satisfy the `\b`
(letter followed by digit), and a zero-length prefix with no separator
needs the previous character to be a non-word character. -/
def doiTryAt (prevWord : Bool) (cs : List Char) : Option (List Char) :=
  let withPre : String → Option (List Char) := fun pre =>
    if leadsWith pre.toList cs then
      let rest0 := cs.drop pre.length
      (match rest0 with
       | a :: b :: r =>
         if doiSep a && doiSep b then
           (doiCore r).map (fun m => pre.toList ++ [a, b] ++ m)
         else none
       | _ => none) <|>
      (match rest0 with
       | a :: r =>
         if doiSep a then (doiCore r).map (fun m => pre.toList ++ [a] ++ m) else none
       | _ => none)
    else none
  (withPre "doi") <|> (withPre "DOI") <|>
  (match cs with
   | a :: b :: r =>
     if doiSep a && doiSep b then (doiCore r).map (fun m => [a, b] ++ m) else none
   | _ => none) <|>
  (match cs with
   | a :: r => if doiSep a then (doiCore r).map (fun m => [a] ++ m) else none
   | _ => none) <|>
  (if !prevWord then doiCore cs else none)

/-- leftmost match of DOI_ID_EXTRACTOR: the first position where the
pattern matches, scanning left to right while tracking the word-character
status of the previous character. -/
def doiScan : List Char → Bool → Option (List Char)
  | [], _ => none
  | c :: rest, prevWord =>
    match doiTryAt prevWord (c :: rest) with
    | some m => some m
    | none => doiScan rest (isWordChar c)

/-- is a case-insensitive `doi:` at the head (DOI_INDICATOR, crf.py 105). -/
def doiIndicatorAt : List Char → Bool
  | d :: o :: i :: ':' :: _ =>
    (d == 'd' || d == 'D') && (o == 'o' || o == 'O') && (i == 'i' || i == 'I')
  | _ => false

/-- re.split on DOI_INDICATOR (case-insensitive `doi:`), fuelled by the
input length. -/
def splitDoiColonFuel : ℕ → List Char → List Char → List (List Char)
  | 0, cs, cur => [cur.reverse ++ cs]
  | _ + 1, [], cur => [cur.reverse]
  | fuel + 1, c :: rest, cur =>
    if doiIndicatorAt (c :: rest) then
      cur.reverse :: splitDoiColonFuel fuel (rest.drop 3) []
    else
      splitDoiColonFuel fuel rest (c :: cur)

/-- CRFClassifierText.extract_doi (crf.py lines 1472-1497): take the
first DOI_ID_EXTRACTOR match, cut it at the first `https://`, `http://`,
`arXiv:` or `ascl:`, drop a trailing dot, split on case-insensitive
`doi:` and return the first non-empty piece ('' when nothing matched). -/
def extract_doi (reference_str : String) : String :=
  match doiScan reference_str.toList false with
  | none => ""
  | some m =>
    let cut := takeBeforeAux (takeBeforeAux (takeBeforeAux (takeBeforeAux
      m "https://".toList) "http://".toList) "arXiv:".toList) "ascl:".toList
    let cut2 := if cut.getLast? == some '.' then cut.dropLast else cut
    let parts := (splitDoiColonFuel (cut2.length + 1) cut2 []).filter
      (fun p => !p.isEmpty)
    String.mk (parts.headD [])

/- ------------------------------------------------------------------ -/
/- Section 10: crf.py, CRFClassifier.reference (lines 492-565)         -/
/- ------------------------------------------------------------------ -/

/-- prefix test on strings (Python str.startswith). -/
def strStartsWith (s pre : String) : Bool := leadsWith pre.toList s.toList

/-- suffix test on strings (Python str.endswith). -/
def strEndsWith (s suf : String) : Bool :=
  leadsWith suf.toList.reverse s.toList.reverse

/-- Python str.strip(): whitespace removed from both ends. -/
def pystrip (s : String) : String :=
  String.mk (((s.toList.dropWhile (fun c => c.isWhitespace)).reverse.dropWhile
    (fun c => c.isWhitespace)).reverse)

/-- CRFClassifier.strip (crf.py lines 373-386): strip the word `remove`
(already lowercase) from the beginning and the end of `text`. -/
def strip_word (text remove : String) : String :=
  if pystrip (strLower text) = remove then ""
  else
    let t1 := if strStartsWith (strLower text) (remove ++ " ") then
      String.mk (text.toList.drop remove.length) else text
    let t2 := if strEndsWith (strLower t1) (" " ++ remove) then
      String.mk (t1.toList.take (t1.length - remove.length)) else t1
    pystrip t2

/-- index of the first occurrence of `sub` in the list, if any. -/
def findSubIdx : List Char → List Char → ℕ → Option ℕ
  | [], sub, i => if sub.isEmpty then some i else none
  | c :: rest, sub, i =>
    if leadsWith sub (c :: rest) then some i else findSubIdx rest sub (i + 1)

/-- Python `doi[doi.find(\"10\"):]` of crf.py line 540 — `find` yields -1
when absent, and slicing from -1 keeps only the last character. -/
def doiFrom10 (doi : String) : String :=
  match findSubIdx doi.toList "10".toList 0 with
  | some i => String.mk (doi.toList.drop i)
  | none => String.mk (doi.toList.drop (doi.length - 1))

/-- Python `.replace(' ', '')`. -/
def strRemoveSpaces (s : String) : String :=
  String.mk (s.toList.filter (fun c => c ≠ ' '))

/-- CRFClassifier.AUTHOR_TAGS (crf.py line 49). -/
def AUTHOR_TAGS : List String :=
  ["AUTHOR_LAST_NAME", "PUNCTUATION_COMMA", "AUTHOR_FIRST_NAME",
   "AUTHOR_FIRST_NAME_FULL", "PUNCTUATION_DOT", "AUTHOR_MIDDLE_NAME", "AND",
   "ET_AL", "PUNCTUATION_HYPEN", "AUTHOR_COLLABORATION"]

/-- the author-joining loop of reference (crf.py lines 501-517): walk the
zipped (word, label) pairs, tracking the previous pair, inserting " ",
", " or ". " between author tokens by the three joining rules, and
stopping at the first non-author label (popping a trailing ","). `prev`
is `none` only at index 0, where `name` is still empty so the Python
`labels[i-1]` access cannot be reached. -/
def buildAuthorName (labels : List String) :
    List (String × String) → Option (String × String) → List String → List String
  | [], _, name => name
  | (w, l) :: rest, prev, name =>
    if AUTHOR_TAGS.contains l then
      let sep : List String :=
        if (strStartsWith l "AUTHOR_" ||
            (["AND", "&", "ET_AL"] : List String).contains l) && !name.isEmpty then
          match prev with
          | some (pw, pl) =>
            if labels.contains "PUNCTUATION_COMMA" && !(pl == "PUNCTUATION_HYPEN") then
              [" "]
            else if pl == "AUTHOR_LAST_NAME" then
              [", "]
            else if (["AUTHOR_FIRST_NAME", "AUTHOR_FIRST_NAME_FULL",
                      "AUTHOR_MIDDLE_NAME"] : List String).contains pl
                    && pw.length == 1 then
              [". "]
            else []
          | none => []
        else []
      buildAuthorName labels rest (some (w, l)) (name ++ sep ++ [w])
    else if !name.isEmpty then
      if name.getLast? == some "," then name.dropLast else name
    else
      name

/-- the parsed reference record: a Python dict in insertion order. -/
abbrev RefDict : Type := List (String × String)

/-- Python dict assignment `d[k] = v`: overwrite in place or append. -/
def dictSet (d : RefDict) (k v : String) : RefDict :=
  if d.any (fun p => p.1 == k) then
    d.map (fun p => if p.1 == k then (k, v) else p)
  else d ++ [(k, v)]

/-- the key list of a parsed reference record. -/
def refKeys (d : RefDict) : List String := d.map Prod.fst

/-- CRFClassifier.identifier_arxiv_or_ascl (crf.py lines 455-473); the
ARXIV_ID_EXTRACTOR / ASCL_ID_EXTRACTOR searches are supplied as the
functions `arxivSearch` / `asclSearch` returning the named group. -/
def identifier_arxiv_or_ascl (arxivSearch asclSearch : String → Option String)
    (words labels : List String) : String × String :=
  match (if labels.contains "ARXIV" then
      (arxivSearch (words.getD (labels.indexOf "ARXIV") "")).map
        (fun a => (("arxiv" : String), strRemoveSpaces a))
    else none) with
  | some r => r
  | none =>
    if labels.contains "ASCL" || labels.contains "ARXIV" then
      match asclSearch (words.getD (labels.indexOf
          (if labels.contains "ASCL" then "ASCL" else "ARXIV")) "") with
      | some a => ("ascl", strRemoveSpaces a)
      | none => ("", "")
    else ("", "")

/-- CRFClassifier.tagged_doi_but_arxiv_or_ascl (crf.py lines 475-490). -/
def tagged_doi_but_arxiv_or_ascl (arxivSearch asclSearch : String → Option String)
    (words labels : List String) : String × String :=
  if labels.contains "DOI" then
    match arxivSearch (words.getD (labels.indexOf "DOI") "") with
    | some a => ("arxiv", strRemoveSpaces a)
    | none =>
      match asclSearch (words.getD (labels.indexOf "DOI") "") with
      | some a => ("ascl", strRemoveSpaces a)
      | none => ("", "")
  else ("", "")

/-- reference, the YEAR branch (crf.py lines 519-520). -/
def refStepYear (words labels : List String) (d : RefDict) : RefDict :=
  if labels.contains "YEAR" then
    dictSet d "year" (words.getD (labels.indexOf "YEAR") "")
  else d

/-- the words tagged VOLUME, in order (crf.py line 524). -/
def volumeWords (words labels : List String) : List String :=
  ((List.range labels.length).filter
    (fun i => labels.getD i "" == "VOLUME")).map (fun i => words.getD i "")

/-- reference, the VOLUME branch (crf.py lines 521-531): a single tagged
word is taken as is; for several, the first all-digit one (possibly
none). -/
def refStepVolume (words labels : List String) (d : RefDict) : RefDict :=
  if labels.contains "VOLUME" then
    if (volumeWords words labels).length = 1 then
      dictSet d "volume" ((volumeWords words labels).getD 0 "")
    else
      match (volumeWords words labels).find? (fun v => pyIsDigit v) with
      | some v => dictSet d "volume" v
      | none => d
  else d

/-- reference, the PAGE branch (crf.py lines 532-533). -/
def refStepPage (words labels : List String) (d : RefDict) : RefDict :=
  if labels.contains "PAGE" then
    dictSet d "page" (words.getD (labels.indexOf "PAGE") "")
  else d

/-- reference, the ISSUE branch (crf.py lines 534-535). -/
def refStepIssue (words labels : List String) (d : RefDict) : RefDict :=
  if labels.contains "ISSUE" then
    dictSet d "issue" (words.getD (labels.indexOf "ISSUE") "")
  else d

/-- reference, the DOI branch (crf.py lines 536-546): verify the tagged
word with extract_doi, record it from its "10" on; otherwise check for a
mislabelled arXiv or ASCL identifier. -/
def refStepDoi (extract_doi_fn : String → String)
    (arxivSearch asclSearch : String → Option String)
    (words labels : List String) (d : RefDict) : RefDict :=
  if labels.contains "DOI" then
    if (extract_doi_fn (words.getD (labels.indexOf "DOI") "")).length > 0 then
      dictSet d "doi" (doiFrom10 (extract_doi_fn (words.getD (labels.indexOf "DOI") "")))
    else if (tagged_doi_but_arxiv_or_ascl arxivSearch asclSearch words labels).2.length > 0 then
      dictSet d (tagged_doi_but_arxiv_or_ascl arxivSearch asclSearch words labels).1
        (tagged_doi_but_arxiv_or_ascl arxivSearch asclSearch words labels).2
    else d
  else d

/-- reference, the ARXIV/ASCL branch (crf.py lines 547-550). -/
def refStepArxivAscl (arxivSearch asclSearch : String → Option String)
    (words labels : List String) (d : RefDict) : RefDict :=
  if labels.contains "ARXIV" || labels.contains "ASCL" then
    if (identifier_arxiv_or_ascl arxivSearch asclSearch words labels).2.length > 0 then
      dictSet d (identifier_arxiv_or_ascl arxivSearch asclSearch words labels).1
        (identifier_arxiv_or_ascl arxivSearch asclSearch words labels).2
    else d
  else d

/-- reference, the ISSN branch (crf.py lines 551-552). -/
def refStepIssn (words labels : List String) (d : RefDict) : RefDict :=
  if labels.contains "ISSN" then
    dictSet d "ISSN" (words.getD (labels.indexOf "ISSN") "")
  else d

/-- the words tagged JOURNAL, in order (crf.py lines 554-556). -/
def journalWords (words labels : List String) : List String :=
  ((List.range labels.length).filter
    (fun i => labels.getD i "" == "JOURNAL")).map (fun i => words.getD i "")

/-- reference, the JOURNAL branch (crf.py lines 553-558). -/
def refStepJournal (words labels : List String) (d : RefDict) : RefDict :=
  if labels.contains "JOURNAL" then
    dictSet d "journal" (strip_word (" ".intercalate (journalWords words labels)) "in")
  else d

/-- the words tagged TITLE or BOOK_TITLE, in order (crf.py lines 560-562). -/
def titleWords (words labels : List String) : List String :=
  ((List.range labels.length).filter
    (fun i => labels.getD i "" == "TITLE" || labels.getD i "" == "BOOK_TITLE")).map
    (fun i => words.getD i "")

/-- reference, the TITLE branch (crf.py lines 559-563): gated on a TITLE
label but gathering TITLE and BOOK_TITLE words. -/
def refStepTitle (words labels : List String) (d : RefDict) : RefDict :=
  if labels.contains "TITLE" then
    dictSet d "title" (strip_word (" ".intercalate (titleWords words labels)) "in")
  else d

/-- CRFClassifier.reference (crf.py lines 492-565): assemble the parsed
record in the source's assignment order, starting with the joined author
tokens ('authors' and 'refstr' are set unconditionally).  The subclass
extract_doi and the two identifier regex searches are parameters. -/
def reference (extract_doi_fn : String → String)
    (arxivSearch asclSearch : String → Option String)
    (refstr : String) (words labels : List String) : RefDict :=
  dictSet
    (refStepTitle words labels
      (refStepJournal words labels
        (refStepIssn words labels
          (refStepArxivAscl arxivSearch asclSearch words labels
            (refStepDoi extract_doi_fn arxivSearch asclSearch words labels
              (refStepIssue words labels
                (refStepPage words labels
                  (refStepVolume words labels
                    (refStepYear words labels
                      (dictSet [] "authors"
                        (String.join (buildAuthorName labels (words.zip labels)
                          none []))))))))))))
    "refstr" refstr

/- ------------------------------------------------------------------ -/
/- Section 11: crf.py, CRFClassifier.get_data_features                 -/
/- (lines 567-1234) with all its helper predicates                     -/
/- ------------------------------------------------------------------ -/

/-- Python `int(bool)`. -/
def b2i (b : Bool) : ℕ := if b then 1 else 0

/-- CRFClassifier.NUMERIC_TAGS (crf.py line 53). -/
def NUMERIC_TAGS : List String :=
  ["ARXIV", "DOI", "ISSUE", "PAGE", "VERSION", "VOLUME", "ISSN", "YEAR", "ASCL"]

/-- CRFClassifier.EDITOR_TAGS (crf.py line 51). -/
def EDITOR_TAGS : List String :=
  ["EDITOR_LAST_NAME", "EDITOR_FIRST_NAME", "EDITOR_MIDDLE_NAME"]

/-- CRFClassifier.STOPWORD_TAGS (crf.py line 55). -/
def STOPWORD_TAGS : List String := ["AND", "IN", "OF", "THE"]

/-- CRFClassifier.PUNCTUATIONS (crf.py lines 39-43), in order. -/
def PUNCTUATIONS : List (String × List String) :=
  [("PUNCTUATION_BRACKETS", ["[", "]"]), ("PUNCTUATION_COLON", [":"]),
   ("PUNCTUATION_COMMA", [","]), ("PUNCTUATION_DOT", ["."]),
   ("PUNCTUATION_PARENTHESIS", ["(", ")"]), ("PUNCTUATION_QUOTES", ["\"", "\x27"]),
   ("PUNCTUATION_NUM", ["#"]), ("PUNCTUATION_HYPEN", ["-"]),
   ("PUNCTUATION_FORWARD_SLASH", ["/"]), ("PUNCTUATION_SEMICOLON", [";"])]

/-- `self.punctuations_str` built in __init__ (crf.py line 189). -/
def punctuations_str : String := String.join (PUNCTUATIONS.flatMap (fun g => g.2))

/-- the segmentation dictionary (keys of SEGMENT_DICT_KEYS, crf.py line
45, plus authors and editors), every value a best-guess string. -/
structure SegmentDict where
  authors : String := ""
  year : String := ""
  title : String := ""
  journal : String := ""
  publisher : String := ""
  volume : String := ""
  issue : String := ""
  page : String := ""
  doi : String := ""
  arxiv : String := ""
  issn : String := ""
  unknown : String := ""
  version : String := ""
  ascl : String := ""
  unknown_url : String := ""
  editors : String := ""

/-- `segment_dict[tag.lower()]` for a numeric tag (crf.py line 579). -/
def segNumericField (sd : SegmentDict) (tag : String) : String :=
  if tag = "ARXIV" then sd.arxiv
  else if tag = "DOI" then sd.doi
  else if tag = "ISSUE" then sd.issue
  else if tag = "PAGE" then sd.page
  else if tag = "VERSION" then sd.version
  else if tag = "VOLUME" then sd.volume
  else if tag = "ISSN" then sd.issn
  else if tag = "YEAR" then sd.year
  else if tag = "ASCL" then sd.ascl
  else ""

/-- the configured pieces used by the feature function: the stop-word
list and the publisher-location gazetteer regex (both come from the Flask
application config, external to this repository). -/
structure CRFConfig where
  stopwords : List String
  locationsSearch : String → Bool

/-- MATCH_PUNCTUATION.search (crf.py line 172): a character that is
neither a word character nor whitespace occurs in the token. -/
def hasPunctChar (s : String) : Bool :=
  s.toList.any (fun c => !(isWordChar c || c.isWhitespace))

/-- MATCH_A_WORD.findall: the maximal `\w+` runs of a string. -/
def findWordsAux : List Char → List Char → List String
  | [], cur => if cur.isEmpty then [] else [String.mk cur.reverse]
  | c :: rest, cur =>
    if isWordChar c then findWordsAux rest (c :: cur)
    else (if cur.isEmpty then [] else [String.mk cur.reverse]) ++ findWordsAux rest []

/-- MATCH_A_WORD.findall on a string. -/
def findWords (s : String) : List String := findWordsAux s.toList []

/-- CRFClassifier.compare_string (crf.py lines 670-677). -/
def compare_string (sub_str s : String) : Bool :=
  (findWords s).any (fun token => sub_str == token)

/-- CRFClassifier.lookahead (crf.py lines 399-411): the first later token
with no punctuation character. -/
def lookahead (tokens : List String) (index : ℕ) : Option String :=
  (tokens.drop (index + 1)).find? (fun t => !hasPunctChar t)

/-- CRFClassifier.lookbehind (crf.py lines 413-425). -/
def lookbehind (tokens : List String) (index : ℕ) : Option String :=
  ((tokens.take index).reverse).find? (fun t => !hasPunctChar t)

/-- re.split on TAGGED_MULTI_WORD_TOKENIZER `([\s.,])` followed by strip
and dropping empties (crf.py lines 427-436): the non-separator runs plus
the "." and "," separators themselves. -/
def tagMultiTok : List Char → List Char → List String
  | [], cur => if cur.isEmpty then [] else [String.mk cur.reverse]
  | c :: rest, cur =>
    if c == '.' || c == ',' then
      (if cur.isEmpty then [] else [String.mk cur.reverse]) ++
        [String.mk [c]] ++ tagMultiTok rest []
    else if c.isWhitespace then
      (if cur.isEmpty then [] else [String.mk cur.reverse]) ++ tagMultiTok rest []
    else tagMultiTok rest (c :: cur)

/-- CRFClassifier.tokenize_identified_multi_words on a string. -/
def tokenize_identified_multi_words (s : String) : List String :=
  tagMultiTok s.toList []

/-- CRFClassifier.search (crf.py lines 361-371): the whole-word wrapper
`(?:\b|\B)pat(?:\b|\B)` matches at every position, so for the word tokens
it is applied to this is a plain substring search. -/
def searchAny (pattern text : String) : Bool := hasSub text.toList pattern.toList

/-- Python `token in big` on strings: substring containment. -/
def strInStr (token big : String) : Bool := hasSub big.toList token.toList

/-- IS_CAPITAL `^([A-Z]+)$` (crf.py line 142). -/
def IS_CAPITAL_m (s : String) : Bool := !s.isEmpty && s.toList.all Char.isUpper

/-- IS_ALPHABET `^(?=.*[a-zA-Z])([a-zA-Z\-]+)$` (crf.py line 144). -/
def IS_ALPHABET_m (s : String) : Bool :=
  !s.isEmpty && s.toList.all (fun c => c.isAlpha || c == '-') &&
    s.toList.any Char.isAlpha

/-- IS_NUMERIC `^(?=.*[0-9])([0-9\-\.]+)$` (crf.py line 149). -/
def IS_NUMERIC_m (s : String) : Bool :=
  !s.isEmpty && s.toList.all (fun c => c.isDigit || c == '-' || c == '.') &&
    s.toList.any Char.isDigit

/-- IS_ALPHANUMERIC `^(?=.*[0-9])(?=.*[a-zA-Z])([a-zA-Z0-9]+)$` (line 151). -/
def IS_ALPHANUMERIC_m (s : String) : Bool :=
  !s.isEmpty && s.toList.all Char.isAlphanum && s.toList.any Char.isDigit &&
    s.toList.any Char.isAlpha

/-- Python `s[0].isupper()` (crashes on an empty token in Python; tokens
are non-empty by construction, modelled with a default). -/
def firstCharUpper (s : String) : Bool := (s.toList.headD ' ').isUpper

/-- CRFClassifier.is_numeric_tag (crf.py lines 567-579). -/
def is_numeric_tag (ref_data : List String) (index : ℕ) (ref_label : List String)
    (current_label : String) (sd : SegmentDict) : ℕ :=
  if ref_label.length > 0 then
    b2i (ref_label.getD index "" == current_label)
  else
    b2i (ref_data.getD index "" == segNumericField sd current_label)

/-- is_year_tag (crf.py line 581). -/
def is_year_tag (rd : List String) (i : ℕ) (rl : List String) (sd : SegmentDict) : ℕ :=
  is_numeric_tag rd i rl "YEAR" sd

/-- is_volume_tag (crf.py line 592). -/
def is_volume_tag (rd : List String) (i : ℕ) (rl : List String) (sd : SegmentDict) : ℕ :=
  is_numeric_tag rd i rl "VOLUME" sd

/-- is_page_tag (crf.py line 603). -/
def is_page_tag (rd : List String) (i : ℕ) (rl : List String) (sd : SegmentDict) : ℕ :=
  is_numeric_tag rd i rl "PAGE" sd

/-- is_issue_tag (crf.py line 614). -/
def is_issue_tag (rd : List String) (i : ℕ) (rl : List String) (sd : SegmentDict) : ℕ :=
  is_numeric_tag rd i rl "ISSUE" sd

/-- is_arxiv_tag (crf.py line 625). -/
def is_arxiv_tag (rd : List String) (i : ℕ) (rl : List String) (sd : SegmentDict) : ℕ :=
  is_numeric_tag rd i rl "ARXIV" sd

/-- is_doi_tag (crf.py line 636). -/
def is_doi_tag (rd : List String) (i : ℕ) (rl : List String) (sd : SegmentDict) : ℕ :=
  is_numeric_tag rd i rl "DOI" sd

/-- is_issn_tag (crf.py line 647). -/
def is_issn_tag (rd : List String) (i : ℕ) (rl : List String) (sd : SegmentDict) : ℕ :=
  is_numeric_tag rd i rl "ISSN" sd

/-- is_ascl_tag (crf.py line 658). -/
def is_ascl_tag (rd : List String) (i : ℕ) (rl : List String) (sd : SegmentDict) : ℕ :=
  is_numeric_tag rd i rl "ASCL" sd

/-- CRFClassifier.is_numeric (crf.py lines 679-690). -/
def is_numeric_feat (rd : List String) (i : ℕ) (rl : List String) (sd : SegmentDict) : ℕ :=
  if rl.length > 0 then b2i (NUMERIC_TAGS.contains (rl.getD i ""))
  else b2i (NUMERIC_TAGS.any (fun tag => rd.getD i "" == segNumericField sd tag))

/-- CRFClassifier.is_unknown (crf.py lines 692-708). -/
def is_unknown (rd : List String) (i : ℕ) (rl : List String) (sd : SegmentDict) : ℕ :=
  if rl.length > 0 then b2i (rl.getD i "" == "NA")
  else if strInStr (rd.getD i "") punctuations_str then 0
  else b2i (searchAny (rd.getD i "") sd.unknown || searchAny (rd.getD i "") sd.unknown_url)

/-- the two lookbehind/lookahead confirmations shared by is_title,
is_journal and is_author (crf.py lines 730-735 and analogues). -/
def side_compare (rd : List String) (i : ℕ) (field : String) : Bool :=
  (match lookbehind rd i with
   | some before => compare_string before field
   | none => false) ||
  (match lookahead rd i with
   | some after => compare_string after field
   | none => false)

/-- CRFClassifier.is_title (crf.py lines 710-736). -/
def is_title (rd : List String) (i : ℕ) (rl : List String) (sd : SegmentDict) : ℕ :=
  if rl.length > 0 then
    b2i (rl.getD i "" == "TITLE" || rl.getD i "" == "BOOK_TITLE")
  else if strInStr (rd.getD i "") sd.title && !strInStr (rd.getD i "") punctuations_str then
    if compare_string (rd.getD i "") sd.title && !(rd.getD i "" == "and") then 1
    else b2i (side_compare rd i sd.title)
  else 0

/-- CRFClassifier.is_journal (crf.py lines 739-764). -/
def is_journal (rd : List String) (i : ℕ) (rl : List String) (sd : SegmentDict) : ℕ :=
  if rl.length > 0 then b2i (rl.getD i "" == "JOURNAL")
  else if strInStr (rd.getD i "") sd.journal && !strInStr (rd.getD i "") punctuations_str then
    if compare_string (rd.getD i "") sd.journal && (rd.getD i "").length > 1 then 1
    else b2i (side_compare rd i sd.journal)
  else 0

/-- CRFClassifier.is_author (crf.py lines 821-846). -/
def is_author (rd : List String) (i : ℕ) (rl : List String) (sd : SegmentDict) : ℕ :=
  if rl.length > 0 then b2i (AUTHOR_TAGS.contains (rl.getD i ""))
  else if strInStr (rd.getD i "") sd.authors && !strInStr (rd.getD i "") punctuations_str then
    if compare_string (rd.getD i "") sd.authors && (rd.getD i "").length > 1 &&
        !(rd.getD i "" == "and") then 1
    else b2i (side_compare rd i sd.authors)
  else 0

/-- CRFClassifier.is_editor (crf.py lines 848-861). -/
def is_editor (rd : List String) (i : ℕ) (rl : List String) (sd : SegmentDict) : ℕ :=
  if rl.length > 0 then b2i (EDITOR_TAGS.contains (rl.getD i ""))
  else b2i (compare_string (rd.getD i "") sd.editors &&
    !compare_string (rd.getD i "") sd.journal)

/-- CRFClassifier.is_publisher (crf.py lines 766-778). -/
def is_publisher (rd : List String) (i : ℕ) (rl : List String) (sd : SegmentDict) : ℕ :=
  if rl.length > 0 then b2i (rl.getD i "" == "PUBLISHER")
  else b2i (compare_string (rd.getD i "") sd.publisher)

/-- CRFClassifier.is_location (crf.py lines 780-793). -/
def is_location (cfg : CRFConfig) (rd : List String) (i : ℕ) (rl : List String) : ℕ :=
  if rl.length > 0 then b2i (rl.getD i "" == "PUBLISHER_LOCATION")
  else b2i (cfg.locationsSearch (rd.getD i ""))

/-- CRFClassifier.is_stopword (crf.py lines 807-819). -/
def is_stopword (cfg : CRFConfig) (rd : List String) (i : ℕ) (rl : List String) : ℕ :=
  if rl.length > 0 then b2i (STOPWORD_TAGS.contains (rl.getD i ""))
  else b2i (cfg.stopwords.contains (rd.getD i ""))

/-- CRFClassifier.where_in_author (crf.py lines 915-950).  The labelled
branch's Python `next(...)` can raise when only middle-name author labels
occur; that partial path is modelled with an out-of-range default. -/
def where_in_author (rd : List String) (i : ℕ) (rl : List String) (sd : SegmentDict) : ℕ :=
  if rl.length > 0 then
    if rl.any (fun l => strHasSub l "AUTHOR_") then
      let idx_first := (rl.findIdx? (fun v => (["AUTHOR_LAST_NAME", "AUTHOR_FIRST_NAME",
        "AUTHOR_FIRST_NAME_FULL", "AUTHOR_COLLABORATION"] : List String).contains v)).getD
        rl.length
      let idx_last := rl.length - ((rl.reverse.findIdx? (fun v =>
        (["AUTHOR_LAST_NAME", "AUTHOR_FIRST_NAME", "AUTHOR_FIRST_NAME_FULL", "ET_AL",
          "AUTHOR_COLLABORATION"] : List String).contains v)).getD rl.length) - 1
      if i = idx_first then 1
      else if i = idx_last then 2
      else if idx_first < i ∧ i < idx_last then 3
      else 0
    else 0
  else if sd.authors.length > 0 then
    if (tokenize_identified_multi_words sd.authors).contains (rd.getD i "") &&
        (tokenize_identified_multi_words sd.journal).contains (rd.getD i "") then 0
    else if rd.getD i "" == (tokenize_identified_multi_words sd.authors).getD 0 "" then 1
    else if rd.getD i "" == ((tokenize_identified_multi_words sd.authors).getLast?).getD "" then 2
    else if 0 < i ∧ i < (tokenize_identified_multi_words sd.authors).length then 3
    else 0
  else 0

/-- CRFClassifier.where_in_editor (crf.py lines 952-987). -/
def where_in_editor (rd : List String) (i : ℕ) (rl : List String) (sd : SegmentDict) : ℕ :=
  if rl.length > 0 then
    if rl.any (fun l => EDITOR_TAGS.contains l) then
      let idx_first := (rl.findIdx? (fun v => (["EDITOR_LAST_NAME",
        "EDITOR_FIRST_NAME"] : List String).contains v)).getD rl.length
      let idx_last := rl.length - ((rl.reverse.findIdx? (fun v =>
        (["EDITOR_LAST_NAME", "EDITOR_FIRST_NAME", "ET_AL"] : List String).contains
          v)).getD rl.length) - 1
      if i = idx_first then 1
      else if i = idx_last then 2
      else if idx_first < i ∧ i < idx_last then 3
      else 0
    else 0
  else if sd.editors.length > 0 then
    if (tokenize_identified_multi_words sd.editors).contains (rd.getD i "") &&
        (tokenize_identified_multi_words sd.journal).contains (rd.getD i "") then 0
    else if rd.getD i "" == (tokenize_identified_multi_words sd.editors).getD 0 "" then 1
    else if rd.getD i "" == ((tokenize_identified_multi_words sd.editors).getLast?).getD "" then 2
    else if 0 < i ∧ i < (tokenize_identified_multi_words sd.editors).length then 3
    else 0
  else 0

/-- the shared tail of where_in_title's unlabelled branch (crf.py lines
1021-1027), including the Python precedence `a or b and c`. -/
def where_in_title_tail (cfg : CRFConfig) (rd : List String) (i : ℕ)
    (sd : SegmentDict) (token : List String) : ℕ :=
  if rd.getD i "" == token.getD 0 "" then 1
  else if rd.getD i "" == (token.getLast?).getD "" then 2
  else if token.contains (rd.getD i "") ||
      ((pysplit sd.unknown).contains (rd.getD i "") &&
        !(is_stopword cfg rd i [] == 1)) then 3
  else 0

/-- CRFClassifier.where_in_title (crf.py lines 989-1028).  Note the
labelled branch computes idx_last without the `- 1` used by
where_in_author (source line 1006). -/
def where_in_title (cfg : CRFConfig) (rd : List String) (i : ℕ) (rl : List String)
    (sd : SegmentDict) : ℕ :=
  if rl.length > 0 then
    if rl.contains "TITLE" || rl.contains "BOOK_TITLE" then
      let idx_first := (rl.findIdx? (fun v => v == "TITLE" || v == "BOOK_TITLE")).getD
        rl.length
      let idx_last := rl.length - ((rl.reverse.findIdx? (fun v =>
        v == "TITLE" || v == "BOOK_TITLE")).getD rl.length)
      if i = idx_first then 1
      else if i = idx_last then 2
      else if idx_first < i ∧ i < idx_last then 3
      else 0
    else 0
  else if sd.title.length > 0 then
    if 2 ≤ (tokenize_identified_multi_words sd.title).length ∧ 1 < i ∧
        i + 1 < rd.length then
      if rd.getD i "" == (tokenize_identified_multi_words sd.title).getD 0 "" &&
          rd.getD (i + 1) "" == (tokenize_identified_multi_words sd.title).getD 1 "" then 1
      else if rd.getD i "" == ((tokenize_identified_multi_words sd.title).getLast?).getD "" &&
          rd.getD (i - 1) "" == (tokenize_identified_multi_words sd.title).getD
            ((tokenize_identified_multi_words sd.title).length - 2) "" then 2
      else where_in_title_tail cfg rd i sd (tokenize_identified_multi_words sd.title)
    else where_in_title_tail cfg rd i sd (tokenize_identified_multi_words sd.title)
  else 0

/-- CRFClassifier.where_in_journal (crf.py lines 1030-1065); the labelled
branch also computes idx_last without `- 1` (source line 1047). -/
def where_in_journal (rd : List String) (i : ℕ) (rl : List String)
    (sd : SegmentDict) : ℕ :=
  if rl.length > 0 then
    if rl.contains "JOURNAL" then
      let idx_first := (rl.findIdx? (fun v => v == "JOURNAL")).getD rl.length
      let idx_last := rl.length - ((rl.reverse.findIdx? (fun v =>
        v == "JOURNAL")).getD rl.length)
      if i = idx_first then 1
      else if i = idx_last then 2
      else if idx_first < i ∧ i < idx_last then 3
      else 0
    else 0
  else if sd.journal.length > 0 then
    if (tokenize_identified_multi_words sd.journal).contains (rd.getD i "") &&
        (tokenize_identified_multi_words sd.authors).contains (rd.getD i "") then 0
    else if rd.getD i "" == (tokenize_identified_multi_words sd.journal).getD 0 "" then 1
    else if rd.getD i "" == ((tokenize_identified_multi_words sd.journal).getLast?).getD "" then 2
    else if (tokenize_identified_multi_words sd.journal).contains (rd.getD i "") then 3
    else 0
  else 0

/-- CRFClassifier.which_identifying_word (crf.py lines 876-888). -/
def which_identifying_word (rd : List String) (i : ℕ) (rl : List String) : ℕ :=
  if rl.length > 0 then
    match IDENTIFYING_WORDS.findIdx? (fun g => g.1 == rl.getD i "") with
    | some j => j + 1
    | none => 0
  else is_identifying_word (rd.getD i "")

/-- CRFClassifier.is_punctuation (crf.py lines 890-900). -/
def is_punctuation (punctuation : String) : ℕ :=
  match PUNCTUATIONS.findIdx? (fun g => g.2.contains punctuation) with
  | some j => j + 1
  | none => 0

/-- CRFClassifier.which_punctuation (crf.py lines 902-913). -/
def which_punctuation (rd : List String) (i : ℕ) (rl : List String) : ℕ :=
  if rl.length > 0 then
    match PUNCTUATIONS.findIdx? (fun g => g.1 == rl.getD i "") with
    | some j => j + 1
    | none => 0
  else is_punctuation (rd.getD i "")

/-- get_data_features_author (crf.py lines 1067-1082). -/
def get_data_features_author (rd : List String) (i : ℕ) (rl : List String)
    (sd : SegmentDict) : List ℕ :=
  [is_author rd i rl sd,
   b2i (where_in_author rd i rl sd == 1),
   b2i (where_in_author rd i rl sd == 2),
   b2i (where_in_author rd i rl sd == 3)]

/-- get_data_features_editor (crf.py lines 1084-1099). -/
def get_data_features_editor (rd : List String) (i : ℕ) (rl : List String)
    (sd : SegmentDict) : List ℕ :=
  [is_editor rd i rl sd,
   b2i (where_in_editor rd i rl sd == 1),
   b2i (where_in_editor rd i rl sd == 2),
   b2i (where_in_editor rd i rl sd == 3)]

/-- get_data_features_title (crf.py lines 1101-1116). -/
def get_data_features_title (cfg : CRFConfig) (rd : List String) (i : ℕ)
    (rl : List String) (sd : SegmentDict) : List ℕ :=
  [is_title rd i rl sd,
   b2i (where_in_title cfg rd i rl sd == 1),
   b2i (where_in_title cfg rd i rl sd == 2),
   b2i (where_in_title cfg rd i rl sd == 3)]

/-- get_data_features_journal (crf.py lines 1118-1133). -/
def get_data_features_journal (rd : List String) (i : ℕ) (rl : List String)
    (sd : SegmentDict) : List ℕ :=
  [is_journal rd i rl sd,
   b2i (where_in_journal rd i rl sd == 1),
   b2i (where_in_journal rd i rl sd == 2),
   b2i (where_in_journal rd i rl sd == 3)]

/-- get_data_features_identifying_word (crf.py lines 1135-1157): a
membership bit plus an 11-way one-hot. -/
def get_data_features_identifying_word (rd : List String) (i : ℕ)
    (rl : List String) : List ℕ :=
  [b2i (is_identifying_word (rd.getD i "") > 0),
   b2i (which_identifying_word rd i rl == 1),
   b2i (which_identifying_word rd i rl == 2),
   b2i (which_identifying_word rd i rl == 3),
   b2i (which_identifying_word rd i rl == 4),
   b2i (which_identifying_word rd i rl == 5),
   b2i (which_identifying_word rd i rl == 6),
   b2i (which_identifying_word rd i rl == 7),
   b2i (which_identifying_word rd i rl == 8),
   b2i (which_identifying_word rd i rl == 9),
   b2i (which_identifying_word rd i rl == 10),
   b2i (which_identifying_word rd i rl == 11)]

/-- get_data_features_punctuation (crf.py lines 1159-1180): a membership
bit plus a 10-way one-hot. -/
def get_data_features_punctuation (rd : List String) (i : ℕ)
    (rl : List String) : List ℕ :=
  [b2i (is_punctuation (rd.getD i "") > 0),
   b2i (which_punctuation rd i rl == 1),
   b2i (which_punctuation rd i rl == 2),
   b2i (which_punctuation rd i rl == 3),
   b2i (which_punctuation rd i rl == 4),
   b2i (which_punctuation rd i rl == 5),
   b2i (which_punctuation rd i rl == 6),
   b2i (which_punctuation rd i rl == 7),
   b2i (which_punctuation rd i rl == 8),
   b2i (which_punctuation rd i rl == 9),
   b2i (which_punctuation rd i rl == 10)]

/-- CRFClassifier.get_data_features (crf.py lines 1182-1234): the full
per-token feature vector — the 35 core entries in source order followed
by the author, title, journal, identifying-word, punctuation and editor
blocks.  `ref_label` is the true label sequence during training and empty
at inference, where `segment_dict` serves as the oracle instead. -/
def get_data_features (cfg : CRFConfig) (ref_data : List String) (index : ℕ)
    (ref_label : List String) (segment_dict : SegmentDict) : List ℕ :=
  [(ref_data.getD index "").length,
   (if index > 0 then (ref_data.getD (index - 1) "").length else 0),
   (if index < ref_data.length - 1 then (ref_data.getD (index + 1) "").length else 0),
   b2i (IS_CAPITAL_m (ref_data.getD index "")),
   (if index > 0 then b2i (IS_CAPITAL_m (ref_data.getD (index - 1) "")) else 0),
   (if index < ref_data.length - 1 then
     b2i (IS_CAPITAL_m (ref_data.getD (index + 1) "")) else 0),
   b2i (firstCharUpper (ref_data.getD index "")),
   (if index > 0 then b2i (firstCharUpper (ref_data.getD (index - 1) "")) else 0),
   (if index < ref_data.length - 1 then
     b2i (firstCharUpper (ref_data.getD (index + 1) "")) else 0),
   b2i (IS_ALPHABET_m (ref_data.getD index "")),
   (if index > 0 then b2i (IS_ALPHABET_m (ref_data.getD (index - 1) "")) else 0),
   (if index < ref_data.length - 1 then
     b2i (IS_ALPHABET_m (ref_data.getD (index + 1) "")) else 0),
   b2i (IS_NUMERIC_m (ref_data.getD index "")),
   (if index > 0 then b2i (IS_NUMERIC_m (ref_data.getD (index - 1) "")) else 0),
   (if index < ref_data.length - 1 then
     b2i (IS_NUMERIC_m (ref_data.getD (index + 1) "")) else 0),
   is_numeric_feat ref_data index ref_label segment_dict,
   (if index > 0 then is_numeric_feat ref_data (index - 1) ref_label segment_dict else 0),
   (if index < ref_data.length - 1 then
     is_numeric_feat ref_data (index + 1) ref_label segment_dict else 0),
   b2i (IS_ALPHANUMERIC_m (ref_data.getD index "")),
   (if index > 0 then b2i (IS_ALPHANUMERIC_m (ref_data.getD (index - 1) "")) else 0),
   (if index < ref_data.length - 1 then
     b2i (IS_ALPHANUMERIC_m (ref_data.getD (index + 1) "")) else 0),
   is_stopword cfg ref_data index ref_label,
   (if index > 0 then is_stopword cfg ref_data (index - 1) ref_label else 0),
   (if index < ref_data.length - 1 then
     is_stopword cfg ref_data (index + 1) ref_label else 0),
   is_year_tag ref_data index ref_label segment_dict,
   is_page_tag ref_data index ref_label segment_dict,
   is_volume_tag ref_data index ref_label segment_dict,
   is_issue_tag ref_data index ref_label segment_dict,
   is_doi_tag ref_data index ref_label segment_dict,
   is_arxiv_tag ref_data index ref_label segment_dict,
   is_ascl_tag ref_data index ref_label segment_dict,
   is_issn_tag ref_data index ref_label segment_dict,
   is_location cfg ref_data index ref_label,
   is_publisher ref_data index ref_label segment_dict,
   is_unknown ref_data index ref_label segment_dict]
  ++ get_data_features_author ref_data index ref_label segment_dict
  ++ get_data_features_title cfg ref_data index ref_label segment_dict
  ++ get_data_features_journal ref_data index ref_label segment_dict
  ++ get_data_features_identifying_word ref_data index ref_label
  ++ get_data_features_punctuation ref_data index ref_label
  ++ get_data_features_editor ref_data index ref_label segment_dict

/- ================================================================== -/
/- Theorems                                                           -/
/- ================================================================== -/

theorem crf_fit_loop_le_snd (attempt : ℕ → Option ℚ) :
    ∀ (n : ℕ) (s : ℚ) (k : ℕ), k ≤ (crf_fit_loop attempt n s k).2 := by
  intro n
  induction n with
  | zero => intro s k; exact le_refl k
  | succ m ih =>
    intro s k
    by_cases h : s ≤ 9/10
    · have := ih ((attempt k).getD s) (k + 1)
      simp only [crf_fit_loop, if_pos h]
      omega
    · simp only [crf_fit_loop, if_neg h]
      exact le_refl k

theorem crf_fit_loop_snd_le (attempt : ℕ → Option ℚ) :
    ∀ (n : ℕ) (s : ℚ) (k : ℕ), (crf_fit_loop attempt n s k).2 ≤ k + n := by
  intro n
  induction n with
  | zero => intro s k; exact Nat.le_refl k
  | succ m ih =>
    intro s k
    by_cases h : s ≤ 9/10
    · have := ih ((attempt k).getD s) (k + 1)
      simp only [crf_fit_loop, if_pos h]
      omega
    · simp only [crf_fit_loop, if_neg h]
      omega

theorem crf_fit_loop_early_stop (attempt : ℕ → Option ℚ) :
    ∀ (n : ℕ) (s : ℚ) (k : ℕ),
      (crf_fit_loop attempt n s k).2 < k + n → ¬ ((crf_fit_loop attempt n s k).1 ≤ 9/10) := by
  intro n
  induction n with
  | zero => intro s k h; simp only [crf_fit_loop] at h; omega
  | succ m ih =>
    intro s k
    by_cases h : s ≤ 9/10
    · simp only [crf_fit_loop, if_pos h]
      intro hlt
      exact ih ((attempt k).getD s) (k + 1) (by omega)
    · simp only [crf_fit_loop, if_neg h]
      intro _
      exact h

theorem crf_fit_loop_stationary (attempt : ℕ → Option ℚ) :
    ∀ (n : ℕ) (s : ℚ) (k : ℕ),
      (crf_fit_loop attempt n s k).2 = k → (crf_fit_loop attempt n s k).1 = s := by
  intro n
  induction n with
  | zero => intro s k _; rfl
  | succ m ih =>
    intro s k
    by_cases h : s ≤ 9/10
    · simp only [crf_fit_loop, if_pos h]
      intro heq
      have := crf_fit_loop_le_snd attempt m ((attempt k).getD s) (k + 1)
      omega
    · intro _
      simp only [crf_fit_loop, if_neg h]

theorem crf_fit_loop_progress (attempt : ℕ → Option ℚ) (n : ℕ) (s : ℚ) (k : ℕ)
    (hs : s ≤ 9/10) (hn : 0 < n) : k < (crf_fit_loop attempt n s k).2 := by
  cases n with
  | zero => omega
  | succ m =>
    simp only [crf_fit_loop, if_pos hs]
    have := crf_fit_loop_le_snd attempt m ((attempt k).getD s) (k + 1)
    omega

theorem crf_fit_loop_last_score (attempt : ℕ → Option ℚ) :
    ∀ (n : ℕ) (s : ℚ) (k : ℕ) (q : ℚ),
      k < (crf_fit_loop attempt n s k).2 →
      attempt ((crf_fit_loop attempt n s k).2 - 1) = some q →
      (crf_fit_loop attempt n s k).1 = q := by
  intro n
  induction n with
  | zero => intro s k q h; simp only [crf_fit_loop] at h; omega
  | succ m ih =>
    intro s k q
    by_cases h : s ≤ 9/10
    · simp only [crf_fit_loop, if_pos h]
      intro hlt hq
      by_cases h2 : k + 1 < (crf_fit_loop attempt m ((attempt k).getD s) (k + 1)).2
      · exact ih ((attempt k).getD s) (k + 1) q h2 hq
      · have hge := crf_fit_loop_le_snd attempt m ((attempt k).getD s) (k + 1)
        have heq : (crf_fit_loop attempt m ((attempt k).getD s) (k + 1)).2 = k + 1 := by omega
        have hst := crf_fit_loop_stationary attempt m ((attempt k).getD s) (k + 1) heq
        rw [hst]
        rw [heq] at hq
        simp only [Nat.add_sub_cancel] at hq
        rw [hq]
        rfl
    · simp only [crf_fit_loop, if_neg h]
      intro hlt
      omega

/-- C3: create_crf makes at most 10 fit/evaluate attempts when folds were
freshly randomized and exactly 1 when the static fold file is used
(`crf_num_tries false = 1` together with the bounds below), always makes at
least one attempt, stops retrying as soon as the held-out score exceeds
0.90 (an early exit implies the final score is above 0.90), an attempt
that raises is abandoned with the score left unchanged (modelled by
`Option.getD` in `crf_fit_loop`), and the return value is True iff the
last evaluated score is strictly greater than 0. -/
theorem C3_create_crf_acceptance (gf : Bool) (attempt : ℕ → Option ℚ) :
    (crf_run gf attempt).2 ≤ crf_num_tries gf ∧
    1 ≤ (crf_run gf attempt).2 ∧
    ((crf_run gf attempt).2 < crf_num_tries gf → ¬ ((crf_run gf attempt).1 ≤ 9/10)) ∧
    (∀ q : ℚ, attempt ((crf_run gf attempt).2 - 1) = some q →
      create_crf gf attempt = decide (0 < q)) := by
  have hpos : 0 < crf_num_tries gf := by cases gf <;> simp [crf_num_tries]
  have hs0 : (0 : ℚ) ≤ 9/10 := by norm_num
  refine ⟨?_, ?_, ?_, ?_⟩
  · have := crf_fit_loop_snd_le attempt (crf_num_tries gf) 0 0
    simpa [crf_run] using this
  · have := crf_fit_loop_progress attempt (crf_num_tries gf) 0 0 hs0 hpos
    simpa [crf_run] using this
  · intro hlt
    have := crf_fit_loop_early_stop attempt (crf_num_tries gf) 0 0 (by simpa [crf_run] using hlt)
    simpa [crf_run] using this
  · intro q hq
    have h1 : 0 < (crf_run gf attempt).2 :=
      crf_fit_loop_progress attempt (crf_num_tries gf) 0 0 hs0 hpos
    have h2 : (crf_run gf attempt).1 = q :=
      crf_fit_loop_last_score attempt (crf_num_tries gf) 0 0 q h1 hq
    simp only [create_crf, h2]

/-- witness for C3: a single static-fold attempt scoring 1/2 is accepted. -/
theorem C3_create_crf_acceptance_witness :
    create_crf false (fun _ => some (1/2)) = true := by
  have h := (C3_create_crf_acceptance false (fun _ => some (1/2))).2.2.2 (1/2) rfl
  rw [h]
  norm_num

/-- C7: when two or more author shapes tie at the maximal match length and
the one-extra-nonzero-scorer tiebreak does not apply, the 4-bit on/off
encoding of the tied shapes decides the result exactly as the fixed table:
values 0, 6, 9, 12, 15 give no decision (None), value 3 gives the
leading-full-name pattern, values 5 and 7 give leading-initials, values 10
and 11 give trailing-initials, value 13 gives leading-full-name, and value
14 gives trailing-full-name. -/
theorem C7_author_pattern_tie_table (lengths : List Nat)
    (h2 : 2 ≤ (indicesMax lengths).length)
    (hmin : ¬ (((indicesMatch lengths).length : Int) - ((indicesMax lengths).length : Int) = 1)) :
    (onOffValue (indicesMax lengths) ∈ [0, 6, 9, 12, 15] →
        get_author_pattern_choice lengths = none) ∧
    (onOffValue (indicesMax lengths) = 3 →
        get_author_pattern_choice lengths = some AuthorShape.leadingFull) ∧
    (onOffValue (indicesMax lengths) ∈ [5, 7] →
        get_author_pattern_choice lengths = some AuthorShape.leadingInit) ∧
    (onOffValue (indicesMax lengths) ∈ [10, 11] →
        get_author_pattern_choice lengths = some AuthorShape.trailingInit) ∧
    (onOffValue (indicesMax lengths) = 13 →
        get_author_pattern_choice lengths = some AuthorShape.leadingFull) ∧
    (onOffValue (indicesMax lengths) = 14 →
        get_author_pattern_choice lengths = some AuthorShape.trailingFull) := by
  have hne : (indicesMax lengths).length ≠ 1 := by omega
  unfold get_author_pattern_choice
  rw [if_pos hne, if_neg hmin]
  refine ⟨?_, ?_, ?_, ?_, ?_, ?_⟩ <;> intro hv
  · rw [if_pos hv]
  · rw [hv, if_neg (by decide), if_pos rfl]
  · simp only [List.mem_cons, List.mem_singleton, List.not_mem_nil, or_false] at hv
    rcases hv with hv | hv <;>
      rw [hv, if_neg (by decide), if_neg (by decide), if_pos (by decide)]
  · simp only [List.mem_cons, List.mem_singleton, List.not_mem_nil, or_false] at hv
    rcases hv with hv | hv <;>
      rw [hv, if_neg (by decide), if_neg (by decide), if_neg (by decide), if_pos (by decide)]
  · rw [hv, if_neg (by decide), if_neg (by decide), if_neg (by decide), if_neg (by decide),
        if_pos rfl]
  · rw [hv, if_neg (by decide), if_neg (by decide), if_neg (by decide), if_neg (by decide),
        if_neg (by decide), if_pos rfl]

/-- witness for C7: two full-name shapes tie with on/off value 3 and the
choice is the leading-full-name pattern. -/
theorem C7_author_pattern_tie_table_witness :
    get_author_pattern_choice [0, 0, 5, 5] = some AuthorShape.leadingFull :=
  (C7_author_pattern_tie_table [0, 0, 5, 5] (by decide) (by decide)).2.1 (by decide)

/-- C8: add_evidence accepts a score exactly when it lies in the configured
[min, max] range and otherwise fails with an assertion (never clamps: a
recorded score is appended unchanged); the in-place combination re-asserts
every concatenated score against the range the same way; and
add_author_evidence clamps its computed score into the range before
recording it, so with a well-formed range it never trips the assertion and
whatever it records lies within [min, max]. -/
theorem C8_evidence_scores_checked :
    (∀ (e : Evidences) (x : ℚ) (lab : String),
      ((exceptIsOk (e.add_evidence x lab) = true) ↔
        (e.min_score ≤ x ∧ x ≤ e.max_score)) ∧
      (∀ e', e.add_evidence x lab = Except.ok e' →
        e'.evidences = e.evidences ++ [x])) ∧
    (∀ (e other : Evidences),
      ((exceptIsOk (e.combine other) = true) ↔
        ∀ ev ∈ other.evidences, e.min_score ≤ ev ∧ ev ≤ e.max_score) ∧
      (∀ e', e.combine other = Except.ok e' →
        e'.evidences = e.evidences ++ other.evidences)) ∧
    (∀ (factor : ℚ) (pyround2 : ℚ → ℚ) (stats : AuthorMatchStats) (ev : Evidences)
        (ra : String) (ads : List String) (he : Bool),
      ev.min_score ≤ ev.max_score →
      ∃ e', add_author_evidence factor pyround2 stats ev ra ads he = Except.ok e' ∧
        (e'.evidences = ev.evidences ∨
          ∃ s, e'.evidences = ev.evidences ++ [s] ∧
            ev.min_score ≤ s ∧ s ≤ ev.max_score)) := by
  refine ⟨?_, ?_, ?_⟩
  · intro e x lab
    constructor
    · constructor
      · intro hk
        by_cases h : e.min_score ≤ x ∧ x ≤ e.max_score
        · exact h
        · simp only [Evidences.add_evidence, if_neg h, exceptIsOk] at hk
          exact absurd hk (by decide)
      · intro h
        simp only [Evidences.add_evidence, if_pos h, exceptIsOk]
    · intro e' he'
      by_cases h : e.min_score ≤ x ∧ x ≤ e.max_score
      · simp only [Evidences.add_evidence, if_pos h, Except.ok.injEq] at he'
        rw [← he']
      · simp only [Evidences.add_evidence, if_neg h] at he'
        exact Except.noConfusion he'
  · intro e other
    constructor
    · constructor
      · intro hk
        by_cases h : ∀ ev ∈ other.evidences, e.min_score ≤ ev ∧ ev ≤ e.max_score
        · exact h
        · simp only [Evidences.combine, if_neg h, exceptIsOk] at hk
          exact absurd hk (by decide)
      · intro h
        simp only [Evidences.combine, if_pos h, exceptIsOk]
    · intro e' he'
      by_cases h : ∀ ev ∈ other.evidences, e.min_score ≤ ev ∧ ev ≤ e.max_score
      · simp only [Evidences.combine, if_pos h, Except.ok.injEq] at he'
        rw [← he']
      · simp only [Evidences.combine, if_neg h] at he'
        exact Except.noConfusion he'
  · intro factor pyround2 stats ev ra ads he hrange
    have key : ∀ sc : ℚ,
        ∃ e', ev.add_evidence (max ev.min_score (min ev.max_score sc)) "authors"
            = Except.ok e' ∧
          (e'.evidences = ev.evidences ∨
            ∃ s, e'.evidences = ev.evidences ++ [s] ∧
              ev.min_score ≤ s ∧ s ≤ ev.max_score) := by
      intro sc
      have hlo : ev.min_score ≤ max ev.min_score (min ev.max_score sc) := le_max_left _ _
      have hhi : max ev.min_score (min ev.max_score sc) ≤ ev.max_score :=
        max_le hrange (min_le_left _ _)
      refine ⟨Evidences.mk (ev.evidences ++ [max ev.min_score (min ev.max_score sc)])
                (ev.labels ++ ["authors"]) none ev.min_score ev.max_score, ?_,
              Or.inr ⟨max ev.min_score (min ev.max_score sc), rfl, hlo, hhi⟩⟩
      unfold Evidences.add_evidence
      rw [if_pos ⟨hlo, hhi⟩]
    by_cases h0 : (ra.replace "-" " ").length = 0 ∨ ads.length = 0
    · refine ⟨ev, ?_, Or.inl rfl⟩
      unfold add_author_evidence
      rw [if_pos h0]
    · have goal2 : ∃ e', add_author_evidence factor pyround2 stats ev ra ads he
          = Except.ok e' ∧
          (e'.evidences = ev.evidences ∨
            ∃ s, e'.evidences = ev.evidences ++ [s] ∧
              ev.min_score ≤ s ∧ s ≤ ev.max_score) := by
        unfold add_author_evidence
        rw [if_neg h0]
        exact key _
      exact goal2

/-- witness for C8: the author-evidence boundary records a clamped score
for a concrete configuration. -/
theorem C8_evidence_scores_checked_witness :
    ∃ e', add_author_evidence 1 id ⟨0, 0, 1, false⟩ ⟨[], [], none, -1, 1⟩ "s" ["s"] false
        = Except.ok e' ∧
      (e'.evidences = ([] : List ℚ) ∨
        ∃ s, e'.evidences = ([] : List ℚ) ++ [s] ∧ (-1 : ℚ) ≤ s ∧ s ≤ 1) :=
  C8_evidence_scores_checked.2.2 1 id ⟨0, 0, 1, false⟩ ⟨[], [], none, -1, 1⟩ "s" ["s"] false
    (by norm_num)

/-- C10: get_author_last_name_only always returns the lowercased,
de-hyphenated findall results of its primary branch; the try body is a
total computation that never signals Undecidable, so the except fallback
is unreachable. -/
theorem C10_last_name_only_primary (findall : String → List String) (s : String) :
    get_author_last_name_only findall s =
      (findall s).map (fun lastname => lastname.toLower.replace "-" " ") ∧
    exceptIsOk (get_author_last_name_only_try findall s) = true :=
  ⟨rfl, rfl⟩

theorem find_key_isSome_iff (lc : List (String × ℤ)) (l : String) :
    (lc.find? (fun p => p.1 = l)).isSome ↔ l ∈ lc.map Prod.fst := by
  rw [List.find?_isSome]
  constructor
  · rintro ⟨p, hp, hpl⟩
    simp only [decide_eq_true_eq] at hpl
    exact hpl ▸ List.mem_map_of_mem Prod.fst hp
  · intro hl
    rcases List.mem_map.mp hl with ⟨p, hp, hpl⟩
    exact ⟨p, hp, by simp [hpl]⟩

theorem encInv_step (st : List (String × ℤ) × ℤ) (l : String) (h : encInv st) :
    encInv (encStep st l) := by
  obtain ⟨h1, h2, h3⟩ := h
  by_cases hc : 0 ≤ st.2 ∧ (st.1.find? (fun p => p.1 = l)).isSome
  · simpa [encStep, if_pos hc] using ⟨h1, h2, h3⟩
  · have hnotmem : l ∉ st.1.map Prod.fst := by
      intro hmem
      rcases not_and_or.mp hc with hneg | hneg
      · have : (st.1.length : ℤ) = 0 := by omega
        have hlen : st.1.length = 0 := by exact_mod_cast this
        rw [List.length_eq_zero] at hlen
        simp [hlen] at hmem
      · exact hneg ((find_key_isSome_iff st.1 l).mpr hmem)
    refine ⟨?_, ?_, ?_⟩ <;> simp only [encStep, if_neg hc]
    · simp only [List.length_append, List.length_singleton]
      push_cast
      omega
    · have hc2 : st.2 + 1 = Int.ofNat st.1.length := by
        simp only [Int.ofNat_eq_coe]
        omega
      rw [List.map_append, h2, List.map_singleton, List.length_append,
          List.length_singleton, List.range_succ, List.map_append, List.map_singleton, hc2]
    · rw [List.map_append, List.map_singleton]
      rw [List.nodup_append]
      exact ⟨h3, List.nodup_singleton l, by simpa using hnotmem⟩

theorem encInv_foldl_inner (ls : List String) :
    ∀ st, encInv st → encInv (ls.foldl encStep st) := by
  induction ls with
  | nil => intro st h; exact h
  | cons x rest ih => intro st h; exact ih (encStep st x) (encInv_step st x h)

theorem encInv_foldl_outer (cs : List (List String)) :
    ∀ st, encInv st → encInv (cs.foldl (fun (st : List (String × ℤ) × ℤ) (label : List String) => label.foldl encStep st) st) := by
  induction cs with
  | nil => intro st h; exact h
  | cons c rest ih => intro st h; exact ih _ (encInv_foldl_inner c st h)

theorem encInv_encoder (corpus : List (List String)) :
    encInv (corpus.foldl (fun (st : List (String × ℤ) × ℤ) (label : List String) => label.foldl encStep st) ([], -1)) :=
  encInv_foldl_outer corpus ([], -1) (by constructor <;> simp [encInv])

theorem encStep_keys_sub (st : List (String × ℤ) × ℤ) (l : String) :
    st.1.map Prod.fst ⊆ (encStep st l).1.map Prod.fst := by
  by_cases hc : 0 ≤ st.2 ∧ (st.1.find? (fun p => p.1 = l)).isSome
  · simp [encStep, if_pos hc]
  · simp only [encStep, if_neg hc, List.map_append]
    exact List.subset_append_left _ _

theorem foldl_inner_keys_sub (ls : List String) :
    ∀ st, st.1.map Prod.fst ⊆ (ls.foldl encStep st).1.map Prod.fst := by
  induction ls with
  | nil => intro st; exact fun _ h => h
  | cons x rest ih =>
    intro st
    exact fun a ha => ih (encStep st x) (encStep_keys_sub st x ha)

theorem mem_keys_after_inner (ls : List String) :
    ∀ st l, l ∈ ls → l ∈ (ls.foldl encStep st).1.map Prod.fst := by
  induction ls with
  | nil => intro st l h; exact absurd h (List.not_mem_nil l)
  | cons x rest ih =>
    intro st l h
    rcases List.mem_cons.mp h with rfl | hmem
    · have hx : l ∈ (encStep st l).1.map Prod.fst := by
        by_cases hc : 0 ≤ st.2 ∧ (st.1.find? (fun p => p.1 = l)).isSome
        · rw [encStep, if_pos hc]
          exact (find_key_isSome_iff st.1 l).mp hc.2
        · rw [encStep, if_neg hc]
          simp
      exact foldl_inner_keys_sub rest (encStep st l) hx
    · exact ih (encStep st x) l hmem

theorem foldl_outer_keys_sub (cs : List (List String)) :
    ∀ st, st.1.map Prod.fst ⊆
      (cs.foldl (fun (st : List (String × ℤ) × ℤ) (label : List String) => label.foldl encStep st) st).1.map Prod.fst := by
  induction cs with
  | nil => intro st; exact fun _ h => h
  | cons c rest ih =>
    intro st
    exact fun a ha => ih _ (foldl_inner_keys_sub c st ha)

theorem mem_keys_after_outer (cs : List (List String)) :
    ∀ st ls l, ls ∈ cs → l ∈ ls →
      l ∈ (cs.foldl (fun (st : List (String × ℤ) × ℤ) (label : List String) => label.foldl encStep st) st).1.map Prod.fst := by
  induction cs with
  | nil => intro st ls l h; exact absurd h (List.not_mem_nil ls)
  | cons c rest ih =>
    intro st ls l hls hl
    rcases List.mem_cons.mp hls with rfl | hmem
    · exact foldl_outer_keys_sub rest _ (mem_keys_after_inner ls st l hl)
    · exact ih _ ls l hmem hl

theorem roundtrip_elem (lc : List (String × ℤ)) (hv : (lc.map Prod.snd).Nodup)
    (l : String) (hl : l ∈ lc.map Prod.fst) :
    ∃ c, (lc.find? (fun p => p.1 = l)).map Prod.snd = some c ∧
      (lc.find? (fun p => p.2 = c)).map Prod.fst = some l := by
  have hsome : (lc.find? (fun p => p.1 = l)).isSome :=
    (find_key_isSome_iff lc l).mpr hl
  rcases Option.isSome_iff_exists.mp hsome with ⟨pk, hpk⟩
  have hpk1 : pk.1 = l := by
    have := List.find?_some hpk
    simpa using this
  have hpkmem : pk ∈ lc := List.mem_of_find?_eq_some hpk
  refine ⟨pk.2, by rw [hpk]; rfl, ?_⟩
  have hsome2 : (lc.find? (fun p => p.2 = pk.2)).isSome := by
    rw [List.find?_isSome]
    exact ⟨pk, hpkmem, by simp⟩
  rcases Option.isSome_iff_exists.mp hsome2 with ⟨qk, hqk⟩
  have hqk2 : qk.2 = pk.2 := by
    have := List.find?_some hqk
    simpa using this
  have hqkmem : qk ∈ lc := List.mem_of_find?_eq_some hqk
  have : qk = pk := List.inj_on_of_nodup_map hv hqkmem hpkmem hqk2
  rw [hqk]
  simp [this, hpk1]

theorem roundtrip_list (lc : List (String × ℤ)) (hv : (lc.map Prod.snd).Nodup) :
    ∀ ls : List String, (∀ l ∈ ls, l ∈ lc.map Prod.fst) →
      ∃ codes, encodeSeq lc ls = some codes ∧ decoder lc codes = some ls := by
  intro ls
  induction ls with
  | nil => intro _; exact ⟨[], rfl, rfl⟩
  | cons l rest ih =>
    intro hmem
    rcases roundtrip_elem lc hv l (hmem l (List.mem_cons_self l rest)) with ⟨c, hc1, hc2⟩
    rcases ih (fun a ha => hmem a (List.mem_cons_of_mem l ha)) with ⟨codes, he, hd⟩
    refine ⟨c :: codes, ?_, ?_⟩
    · rw [encodeSeq, hc1, he]
    · rw [decoder, hc2, hd]

/-- C9: the label-code map built by encoder assigns a unique integer code
to each distinct label string — dense, starting at 0, in first-seen
(insertion) order, never reassigned (keys are unique) — and decoder
applied to the encoded numeric label sequence of any reference of the
corpus recovers exactly its original label strings. -/
theorem C9_encoder_decoder_round_trip (corpus : List (List String)) (ls : List String)
    (hls : ls ∈ corpus) :
    ((encoder corpus).map Prod.snd
        = (List.range (encoder corpus).length).map Int.ofNat) ∧
    ((encoder corpus).map Prod.fst).Nodup ∧
    ∃ codes, encodeSeq (encoder corpus) ls = some codes ∧
      decoder (encoder corpus) codes = some ls := by
  have hinv := encInv_encoder corpus
  obtain ⟨h1, h2, h3⟩ := hinv
  refine ⟨h2, h3, ?_⟩
  have hv : ((encoder corpus).map Prod.snd).Nodup := by
    rw [show ((encoder corpus).map Prod.snd
        = (List.range (encoder corpus).length).map Int.ofNat) from h2]
    exact (List.nodup_range _).map (fun a b h => Int.ofNat.inj h)
  exact roundtrip_list (encoder corpus) hv ls
    (fun l hl => mem_keys_after_outer corpus ([], -1) ls l hls hl)

/-- witness for C9: a tiny corpus with a repeated label round-trips. -/
theorem C9_encoder_decoder_round_trip_witness :
    ((encoder [["A", "B", "A"]]).map Prod.snd
        = (List.range (encoder [["A", "B", "A"]]).length).map Int.ofNat) ∧
    ((encoder [["A", "B", "A"]]).map Prod.fst).Nodup ∧
    ∃ codes, encodeSeq (encoder [["A", "B", "A"]]) ["A", "B", "A"] = some codes ∧
      decoder (encoder [["A", "B", "A"]]) codes = some ["A", "B", "A"] :=
  C9_encoder_decoder_round_trip [["A", "B", "A"]] ["A", "B", "A"] (by simp)

theorem yearTok_shape (cs tok rest : List Char)
    (h : yearTok cs = some (tok, rest)) : yearShape (String.mk tok) = true := by
  unfold yearTok at h
  repeat' split at h
  all_goals first
    | exact Option.noConfusion h
    | (injection h with h; injection h with htok hrest; subst htok; assumption)

theorem yearMatchAt_shape (cs tok rest : List Char)
    (h : yearMatchAt cs = some (tok, rest)) : yearShape (String.mk tok) = true := by
  unfold yearMatchAt at h
  repeat' split at h
  all_goals first
    | exact Option.noConfusion h
    | (injection h with h; injection h with htok hrest; subst htok;
       exact yearTok_shape cs _ _ (by assumption))

theorem yearScanFuel_shape :
    ∀ (fuel : ℕ) (cs : List Char) (pw : Bool) (y : String),
      y ∈ yearScanFuel fuel cs pw → yearShape y = true := by
  intro fuel
  induction fuel with
  | zero => intro cs pw y h; simp [yearScanFuel] at h
  | succ f ih =>
    intro cs pw y h
    match cs with
    | [] => simp [yearScanFuel] at h
    | c :: rest =>
      simp only [yearScanFuel] at h
      by_cases hpw : (!pw) = true
      · rw [if_pos hpw] at h
        cases hm : yearMatchAt (c :: rest) with
        | some pr =>
          obtain ⟨tok, rest2⟩ := pr
          rw [hm] at h
          rcases List.mem_cons.mp h with rfl | hmem
          · exact yearMatchAt_shape (c :: rest) tok rest2 hm
          · exact ih rest2 false y hmem
        | none =>
          rw [hm] at h
          exact ih rest (isWordChar c) y h
      · rw [if_neg hpw] at h
        exact ih rest (isWordChar c) y h

theorem mem_dedup_aux :
    ∀ (l acc : List String) (x : String),
      x ∈ l.foldl (fun acc x => if acc.contains x then acc else acc ++ [x]) acc →
      x ∈ acc ∨ x ∈ l := by
  intro l
  induction l with
  | nil => intro acc x h; exact Or.inl h
  | cons yhd rest ih =>
    intro acc x h
    simp only [List.foldl_cons] at h
    rcases ih _ x h with hacc | hrest
    · by_cases hc : acc.contains yhd
      · rw [if_pos hc] at hacc
        exact Or.inl hacc
      · rw [if_neg hc] at hacc
        rcases List.mem_append.mp hacc with ha | hy
        · exact Or.inl ha
        · rcases List.mem_singleton.mp hy with rfl
          exact Or.inr (List.mem_cons_self _ _)
    · exact Or.inr (List.mem_cons_of_mem _ hrest)

theorem mem_dedupKeepFirst (l : List String) (x : String)
    (h : x ∈ dedupKeepFirst l) : x ∈ l := by
  rcases mem_dedup_aux l [] x h with h0 | h1
  · exact absurd h0 (List.not_mem_nil x)
  · exact h1

theorem select_year_sub (cands : List String) (ref : String) (now : ℕ) :
    ∀ y ∈ select_year cands ref now, y ∈ cands := by
  intro y hy
  unfold select_year at hy
  by_cases h1 : 1 < cands.length
  · rw [if_pos h1] at hy
    cases hf : cands.find? (fun y => strHasSub ref ("(" ++ y ++ ")")) with
    | some y0 =>
      rw [hf] at hy
      simp only [List.length_singleton] at hy
      rw [if_neg (by omega : ¬ (1 : ℕ) < 1)] at hy
      rcases List.mem_singleton.mp hy with rfl
      exact List.mem_of_find?_eq_some hf
    | none =>
      rw [hf] at hy
      rw [if_pos h1] at hy
      exact List.mem_of_mem_filter hy
  · rw [if_neg h1] at hy
    exact hy

theorem length_one_eq (l : List String) (h : l.length = 1) : l = [l.getD 0 ""] := by
  match l, h with
  | [x], _ => rfl

/-- C4 counterexample: for the input "Smith 2999 " the extracted year is
"2999", which is outside [1400, current year] (2026 at the time of this
analysis) — a single year candidate is accepted without any range check,
contradicting the claim that the year is always within [1400, now]. -/
theorem C4_year_counterexample :
    picked_year "Smith 2999 " 2026 = some "2999" ∧
    ¬ (strToNatD "2999" ≤ 2026) := by
  constructor
  · rfl
  · decide

/-- C4 amended: every extracted year token matches `[12][089]\d\d[a-z]?`
(four digits, optional trailing lowercase letter), a candidate enclosed
in parentheses is preferred when several distinct candidates appear, and
the numeric/[1400, current year] filter is applied only when several
candidates remain after the parenthesis preference — a single candidate
(such as an out-of-range "2999") is accepted with no range check. -/
theorem C4_year_selection (ref : String) (year_now : ℕ) :
    (∀ y : String, picked_year ref year_now = some y → yearShape y = true) ∧
    (∀ y0 : String, 1 < (year_candidates ref).length →
      (year_candidates ref).find? (fun y => strHasSub ref ("(" ++ y ++ ")")) = some y0 →
      identify_year ref year_now = [y0]) ∧
    (1 < (year_candidates ref).length →
      (year_candidates ref).find? (fun y => strHasSub ref ("(" ++ y ++ ")")) = none →
      ∀ y ∈ identify_year ref year_now,
        pyIsNumeric y = true ∧ 1400 ≤ strToNatD y ∧ strToNatD y ≤ year_now) := by
  refine ⟨?_, ?_, ?_⟩
  · intro y hy
    unfold picked_year at hy
    by_cases hl : (identify_year ref year_now).length = 1
    · rw [if_pos hl] at hy
      injection hy with hy
      have hym : y ∈ identify_year ref year_now := by
        rw [length_one_eq _ hl, hy]
        exact List.mem_singleton.mpr rfl
      have hyc : y ∈ year_candidates ref :=
        select_year_sub (year_candidates ref) ref year_now y hym
      have hys : y ∈ yearScanFuel ref.toList.length ref.toList false :=
        mem_dedupKeepFirst _ y hyc
      exact yearScanFuel_shape _ _ _ y hys
    · rw [if_neg hl] at hy
      exact Option.noConfusion hy
  · intro y0 h1 hf
    unfold identify_year select_year
    rw [if_pos h1, hf]
    rw [if_neg (by simp : ¬ (1 : ℕ) < ([y0] : List String).length)]
  · intro h1 hf y hy
    unfold identify_year select_year at hy
    rw [if_pos h1, hf, if_pos h1] at hy
    have hp := List.of_mem_filter hy
    simp only [Bool.and_eq_true, decide_eq_true_eq] at hp
    exact ⟨hp.1, hp.2.1, hp.2.2⟩

/-- witness for C4: two candidates, the parenthesized one wins. -/
theorem C4_year_selection_witness :
    identify_year "a 1986 1994 (1986) " 2026 = ["1986"] :=
  (C4_year_selection "a 1986 1994 (1986) " 2026).2.1 "1986" (by decide) (by decide)

/-- C5 counterexample: with four leftover numeric tokens (and no other
residual words) the code neither guesses any field nor pushes the
leftovers to 'unknown' — the outer `if len(the_rest) <= 3` has no else,
so they are silently dropped, contradicting the claim that more than 3
leftovers all go to 'unknown' (which would have made unknown equal
"1 2 3 4"). -/
theorem C5_leftover_counterexample :
    (identify_leftover_numerics "" "" "" "" ["1", "2", "3", "4"] []).unknown = "" ∧
    (identify_leftover_numerics "" "" "" "" ["1", "2", "3", "4"] []).volume = "" ∧
    (identify_leftover_numerics "" "" "" "" ["1", "2", "3", "4"] []).page = "" ∧
    (identify_leftover_numerics "" "" "" "" ["1", "2", "3", "4"] []).issue = "" ∧
    (" ".intercalate ["1", "2", "3", "4"]) = "1 2 3 4" ∧
    ("" : String) ≠ "1 2 3 4" :=
  ⟨rfl, rfl, rfl, rfl, rfl, by decide⟩

/-- C5 amended: the positional table on the leftover tokens is as claimed
— 3 leftovers with volume/issue/page all empty are assigned in that
order; 2 leftovers are assigned by the fixed priority (volume first when
empty, then page or issue depending on which is still empty; first to
issue and second to page when volume is set and page empty); 1 leftover
goes to volume, else page, else issue; 2 leftovers with volume and page
both set go to 'unknown' — but MORE than 3 leftovers are silently
discarded (every field and 'unknown' left untouched), not pushed to
'unknown'. -/
theorem C5_leftover_assignment (volume page issue unknown : String)
    (the_rest : List String) :
    (the_rest.length = 3 → volume.length = 0 → issue.length = 0 → page.length = 0 →
      guess_leftover_numerics volume page issue unknown the_rest =
        { volume := the_rest.getD 0 "", issue := the_rest.getD 1 "",
          page := the_rest.getD 2 "", unknown := unknown }) ∧
    (the_rest.length = 2 → volume.length = 0 → page.length = 0 →
      guess_leftover_numerics volume page issue unknown the_rest =
        { volume := the_rest.getD 0 "", issue := issue,
          page := the_rest.getD 1 "", unknown := unknown }) ∧
    (the_rest.length = 2 → volume.length = 0 → page.length ≠ 0 →
      guess_leftover_numerics volume page issue unknown the_rest =
        { volume := the_rest.getD 0 "", issue := the_rest.getD 1 "",
          page := page, unknown := unknown }) ∧
    (the_rest.length = 2 → volume.length ≠ 0 → page.length = 0 →
      guess_leftover_numerics volume page issue unknown the_rest =
        { volume := volume, issue := the_rest.getD 0 "",
          page := the_rest.getD 1 "", unknown := unknown }) ∧
    (the_rest.length = 2 → volume.length ≠ 0 → page.length ≠ 0 →
      guess_leftover_numerics volume page issue unknown the_rest =
        { volume := volume, issue := issue, page := page,
          unknown := concatenate unknown (" ".intercalate the_rest) }) ∧
    (the_rest.length = 1 → volume.length = 0 →
      guess_leftover_numerics volume page issue unknown the_rest =
        { volume := the_rest.getD 0 "", page := page, issue := issue,
          unknown := unknown }) ∧
    (the_rest.length = 1 → volume.length ≠ 0 → page.length = 0 →
      guess_leftover_numerics volume page issue unknown the_rest =
        { volume := volume, page := the_rest.getD 0 "", issue := issue,
          unknown := unknown }) ∧
    (the_rest.length = 1 → volume.length ≠ 0 → page.length ≠ 0 →
      guess_leftover_numerics volume page issue unknown the_rest =
        { volume := volume, page := page, issue := the_rest.getD 0 "",
          unknown := unknown }) ∧
    (3 < the_rest.length →
      guess_leftover_numerics volume page issue unknown the_rest =
        { volume := volume, page := page, issue := issue, unknown := unknown }) := by
  refine ⟨?_, ?_, ?_, ?_, ?_, ?_, ?_, ?_, ?_⟩
  · intro h3 hv hi hp
    unfold guess_leftover_numerics
    rw [if_pos (by omega : the_rest.length ≤ 3), if_pos ⟨h3, hv, hi, hp⟩]
  · intro h2 hv hp
    have hn3 : ¬ (the_rest.length = 3 ∧ volume.length = 0 ∧ issue.length = 0 ∧
        page.length = 0) := by intro hc; omega
    unfold guess_leftover_numerics
    rw [if_pos (by omega : the_rest.length ≤ 3), if_neg hn3,
        if_pos (⟨h2, Or.inl hv⟩ :
          the_rest.length = 2 ∧ (volume.length = 0 ∨ page.length = 0)),
        if_pos hv, if_pos hp]
  · intro h2 hv hp
    have hn3 : ¬ (the_rest.length = 3 ∧ volume.length = 0 ∧ issue.length = 0 ∧
        page.length = 0) := by intro hc; omega
    unfold guess_leftover_numerics
    rw [if_pos (by omega : the_rest.length ≤ 3), if_neg hn3,
        if_pos (⟨h2, Or.inl hv⟩ :
          the_rest.length = 2 ∧ (volume.length = 0 ∨ page.length = 0)),
        if_pos hv, if_neg hp]
  · intro h2 hv hp
    have hn3 : ¬ (the_rest.length = 3 ∧ volume.length = 0 ∧ issue.length = 0 ∧
        page.length = 0) := by intro hc; omega
    unfold guess_leftover_numerics
    rw [if_pos (by omega : the_rest.length ≤ 3), if_neg hn3,
        if_pos (⟨h2, Or.inr hp⟩ :
          the_rest.length = 2 ∧ (volume.length = 0 ∨ page.length = 0)),
        if_neg hv, if_pos hp]
  · intro h2 hv hp
    have hn3 : ¬ (the_rest.length = 3 ∧ volume.length = 0 ∧ issue.length = 0 ∧
        page.length = 0) := by intro hc; omega
    have hn2 : ¬ (the_rest.length = 2 ∧ (volume.length = 0 ∨ page.length = 0)) := by
      intro hc; exact hc.2.elim hv hp
    have hn1 : ¬ (the_rest.length = 1) := by omega
    unfold guess_leftover_numerics
    rw [if_pos (by omega : the_rest.length ≤ 3), if_neg hn3, if_neg hn2, if_neg hn1]
  · intro h1 hv
    have hn3 : ¬ (the_rest.length = 3 ∧ volume.length = 0 ∧ issue.length = 0 ∧
        page.length = 0) := by intro hc; omega
    have hn2 : ¬ (the_rest.length = 2 ∧ (volume.length = 0 ∨ page.length = 0)) := by
      intro hc; omega
    unfold guess_leftover_numerics
    rw [if_pos (by omega : the_rest.length ≤ 3), if_neg hn3, if_neg hn2,
        if_pos h1, if_pos hv]
  · intro h1 hv hp
    have hn3 : ¬ (the_rest.length = 3 ∧ volume.length = 0 ∧ issue.length = 0 ∧
        page.length = 0) := by intro hc; omega
    have hn2 : ¬ (the_rest.length = 2 ∧ (volume.length = 0 ∨ page.length = 0)) := by
      intro hc; omega
    unfold guess_leftover_numerics
    rw [if_pos (by omega : the_rest.length ≤ 3), if_neg hn3, if_neg hn2,
        if_pos h1, if_neg hv, if_pos hp]
  · intro h1 hv hp
    have hn3 : ¬ (the_rest.length = 3 ∧ volume.length = 0 ∧ issue.length = 0 ∧
        page.length = 0) := by intro hc; omega
    have hn2 : ¬ (the_rest.length = 2 ∧ (volume.length = 0 ∨ page.length = 0)) := by
      intro hc; omega
    unfold guess_leftover_numerics
    rw [if_pos (by omega : the_rest.length ≤ 3), if_neg hn3, if_neg hn2,
        if_pos h1, if_neg hv, if_neg hp]
  · intro h4
    unfold guess_leftover_numerics
    rw [if_neg (by omega : ¬ the_rest.length ≤ 3)]

/-- witness for C5: three leftovers with all fields empty are assigned in
order (volume, issue, page). -/
theorem C5_leftover_assignment_witness :
    guess_leftover_numerics "" "" "" "u" ["7", "8", "9"] =
      { volume := "7", issue := "8", page := "9", unknown := "u" } :=
  (C5_leftover_assignment "" "" "" "u" ["7", "8", "9"]).1 rfl rfl rfl rfl

/-- C6 counterexample: on the spec's own example the code returns
"10.3847/1538-4357/aa7579. " — the URL truncation leaves a trailing
". " (dot and space), and since the string then ends with a space, not a
dot, the trailing-dot strip does not fire; the claimed clean value
"10.3847/1538-4357/aa7579" is not produced. -/
theorem C6_extract_doi_counterexample :
    extract_doi "doi:10.3847/1538-4357/aa7579. http://arxiv.org/abs/1703.00965"
      = "10.3847/1538-4357/aa7579. " ∧
    ("10.3847/1538-4357/aa7579. " : String) ≠ "10.3847/1538-4357/aa7579" :=
  ⟨rfl, by decide⟩

/-- C6 amended: extract_doi truncates the matched DOI at the first
embedded https://, http://, arXiv: or ascl: substring, drops a trailing
dot only when the truncated match itself ends with a dot, and keeps only
the first of several concatenated DOIs; on the spec's example the arXiv
URL is excluded but the trailing ". " survives because the truncated
match ends with a space. -/
theorem C6_extract_doi_behavior :
    extract_doi "doi:10.3847/1538-4357/aa7579. http://arxiv.org/abs/1703.00965"
      = "10.3847/1538-4357/aa7579. " ∧
    extract_doi "doi:10.1234/abcd." = "10.1234/abcd" ∧
    extract_doi "doi:10.1111/aaa doi:10.2222/bbb" = "10.1111/aaa " ∧
    extract_doi "doi:10.3847/xyzarXiv:1703.00965" = "10.3847/xyz" :=
  ⟨rfl, rfl, rfl, rfl⟩

theorem mem_refKeys_dictSet_self (d : RefDict) (k v : String) :
    k ∈ refKeys (dictSet d k v) := by
  unfold dictSet refKeys
  by_cases h : d.any (fun p => p.1 == k)
  · rw [if_pos h]
    rcases List.any_eq_true.mp h with ⟨p0, hp0, hk⟩
    refine List.mem_map.mpr ⟨(k, v), ?_, rfl⟩
    refine List.mem_map.mpr ⟨p0, hp0, ?_⟩
    simp only [hk, if_pos]
  · rw [if_neg h]
    refine List.mem_map.mpr ⟨(k, v), ?_, rfl⟩
    exact List.mem_append_right _ (List.mem_singleton.mpr rfl)

theorem mem_refKeys_dictSet_preserve (d : RefDict) (k v x : String)
    (h : x ∈ refKeys d) : x ∈ refKeys (dictSet d k v) := by
  unfold dictSet refKeys
  rcases List.mem_map.mp h with ⟨p, hp, hpx⟩
  by_cases hc : d.any (fun p => p.1 == k)
  · rw [if_pos hc]
    by_cases hpk : (p.1 == k) = true
    · refine List.mem_map.mpr ⟨(k, v), ?_, ?_⟩
      · refine List.mem_map.mpr ⟨p, hp, ?_⟩
        simp only [hpk, if_pos]
      · have hk : p.1 = k := by simpa using hpk
        rw [← hk, hpx]
    · refine List.mem_map.mpr ⟨p, ?_, hpx⟩
      refine List.mem_map.mpr ⟨p, hp, ?_⟩
      simp only [hpk, Bool.false_eq_true, ite_false]
  · rw [if_neg hc]
    exact List.mem_map.mpr ⟨p, List.mem_append_left _ hp, hpx⟩

theorem mem_refKeys_dictSet_sub (d : RefDict) (k v x : String)
    (h : x ∈ refKeys (dictSet d k v)) : x ∈ refKeys d ∨ x = k := by
  unfold dictSet refKeys at h
  by_cases hc : d.any (fun p => p.1 == k)
  · rw [if_pos hc] at h
    rcases List.mem_map.mp h with ⟨q, hq, hqx⟩
    rcases List.mem_map.mp hq with ⟨p, hp, hfp⟩
    by_cases hpk : (p.1 == k) = true
    · right
      rw [← hqx, ← hfp]
      simp only [hpk, if_pos]
    · left
      rw [← hqx, ← hfp]
      simp only [hpk, Bool.false_eq_true, ite_false]
      exact List.mem_map_of_mem _ hp
  · rw [if_neg hc] at h
    rcases List.mem_map.mp h with ⟨q, hq, hqx⟩
    rcases List.mem_append.mp hq with hql | hqr
    · exact Or.inl (List.mem_map.mpr ⟨q, hql, hqx⟩)
    · rcases List.mem_singleton.mp hqr with rfl
      exact Or.inr hqx.symm

theorem refStepYear_preserve (w l : List String) (d : RefDict) (x : String)
    (h : x ∈ refKeys d) : x ∈ refKeys (refStepYear w l d) := by
  unfold refStepYear
  split
  · exact mem_refKeys_dictSet_preserve _ _ _ _ h
  · exact h

theorem refStepYear_sub (w l : List String) (d : RefDict) (x : String)
    (h : x ∈ refKeys (refStepYear w l d)) :
    x ∈ refKeys d ∨ (x = "year" ∧ l.contains "YEAR" = true) := by
  unfold refStepYear at h
  split at h
  · rcases mem_refKeys_dictSet_sub _ _ _ _ h with h | rfl
    · exact Or.inl h
    · exact Or.inr ⟨rfl, by assumption⟩
  · exact Or.inl h

theorem refStepVolume_preserve (w l : List String) (d : RefDict) (x : String)
    (h : x ∈ refKeys d) : x ∈ refKeys (refStepVolume w l d) := by
  unfold refStepVolume
  repeat' split
  all_goals first
    | exact mem_refKeys_dictSet_preserve _ _ _ _ h
    | exact h

theorem refStepVolume_sub (w l : List String) (d : RefDict) (x : String)
    (h : x ∈ refKeys (refStepVolume w l d)) :
    x ∈ refKeys d ∨ (x = "volume" ∧ l.contains "VOLUME" = true) := by
  unfold refStepVolume at h
  split at h
  · split at h
    · rcases mem_refKeys_dictSet_sub _ _ _ _ h with h | rfl
      · exact Or.inl h
      · exact Or.inr ⟨rfl, by assumption⟩
    · split at h
      · rcases mem_refKeys_dictSet_sub _ _ _ _ h with h | rfl
        · exact Or.inl h
        · exact Or.inr ⟨rfl, by assumption⟩
      · exact Or.inl h
  · exact Or.inl h

theorem refStepPage_preserve (w l : List String) (d : RefDict) (x : String)
    (h : x ∈ refKeys d) : x ∈ refKeys (refStepPage w l d) := by
  unfold refStepPage
  split
  · exact mem_refKeys_dictSet_preserve _ _ _ _ h
  · exact h

theorem refStepPage_sub (w l : List String) (d : RefDict) (x : String)
    (h : x ∈ refKeys (refStepPage w l d)) :
    x ∈ refKeys d ∨ (x = "page" ∧ l.contains "PAGE" = true) := by
  unfold refStepPage at h
  split at h
  · rcases mem_refKeys_dictSet_sub _ _ _ _ h with h | rfl
    · exact Or.inl h
    · exact Or.inr ⟨rfl, by assumption⟩
  · exact Or.inl h

theorem refStepIssue_preserve (w l : List String) (d : RefDict) (x : String)
    (h : x ∈ refKeys d) : x ∈ refKeys (refStepIssue w l d) := by
  unfold refStepIssue
  split
  · exact mem_refKeys_dictSet_preserve _ _ _ _ h
  · exact h

theorem refStepIssue_sub (w l : List String) (d : RefDict) (x : String)
    (h : x ∈ refKeys (refStepIssue w l d)) :
    x ∈ refKeys d ∨ (x = "issue" ∧ l.contains "ISSUE" = true) := by
  unfold refStepIssue at h
  split at h
  · rcases mem_refKeys_dictSet_sub _ _ _ _ h with h | rfl
    · exact Or.inl h
    · exact Or.inr ⟨rfl, by assumption⟩
  · exact Or.inl h

theorem tagged_doi_tag (as ac : String → Option String) (w l : List String) :
    (tagged_doi_but_arxiv_or_ascl as ac w l).1 = "arxiv" ∨
    (tagged_doi_but_arxiv_or_ascl as ac w l).1 = "ascl" ∨
    tagged_doi_but_arxiv_or_ascl as ac w l = ("", "") := by
  unfold tagged_doi_but_arxiv_or_ascl
  repeat' split
  all_goals simp

theorem identifier_tag (as ac : String → Option String) (w l : List String) :
    (identifier_arxiv_or_ascl as ac w l).1 = "arxiv" ∨
    (identifier_arxiv_or_ascl as ac w l).1 = "ascl" ∨
    identifier_arxiv_or_ascl as ac w l = ("", "") := by
  unfold identifier_arxiv_or_ascl
  split
  next r heq =>
    left
    by_cases hc : l.contains "ARXIV" = true
    · rw [if_pos hc] at heq
      cases ha : as (w.getD (l.indexOf "ARXIV") "") with
      | none => rw [ha] at heq; exact Option.noConfusion heq
      | some a =>
        rw [ha] at heq
        simp only [Option.map_some'] at heq
        injection heq with heq
        rw [← heq]
    · rw [if_neg hc] at heq
      exact Option.noConfusion heq
  next heq =>
    split
    · split
      · right; left; rfl
      · right; right; rfl
    · right; right; rfl

theorem refStepDoi_preserve (ed : String → String) (as ac : String → Option String)
    (w l : List String) (d : RefDict) (x : String)
    (h : x ∈ refKeys d) : x ∈ refKeys (refStepDoi ed as ac w l d) := by
  unfold refStepDoi
  repeat' split
  all_goals first
    | exact mem_refKeys_dictSet_preserve _ _ _ _ h
    | exact h

theorem refStepDoi_sub (ed : String → String) (as ac : String → Option String)
    (w l : List String) (d : RefDict) (x : String)
    (h : x ∈ refKeys (refStepDoi ed as ac w l d)) :
    x ∈ refKeys d ∨
      ((x = "doi" ∨ x = "arxiv" ∨ x = "ascl") ∧ l.contains "DOI" = true) := by
  unfold refStepDoi at h
  split at h
  case isTrue hdoi =>
    split at h
    · rcases mem_refKeys_dictSet_sub _ _ _ _ h with h | rfl
      · exact Or.inl h
      · exact Or.inr ⟨Or.inl rfl, hdoi⟩
    · split at h
      case isTrue hlen =>
        rcases mem_refKeys_dictSet_sub _ _ _ _ h with h | rfl
        · exact Or.inl h
        · rcases tagged_doi_tag as ac w l with ht | ht | ht
          · exact Or.inr ⟨Or.inr (Or.inl ht), hdoi⟩
          · exact Or.inr ⟨Or.inr (Or.inr ht), hdoi⟩
          · rw [ht] at hlen
            simp at hlen
      case isFalse => exact Or.inl h
  case isFalse => exact Or.inl h

theorem refStepArxivAscl_preserve (as ac : String → Option String)
    (w l : List String) (d : RefDict) (x : String)
    (h : x ∈ refKeys d) : x ∈ refKeys (refStepArxivAscl as ac w l d) := by
  unfold refStepArxivAscl
  repeat' split
  all_goals first
    | exact mem_refKeys_dictSet_preserve _ _ _ _ h
    | exact h

theorem refStepArxivAscl_sub (as ac : String → Option String)
    (w l : List String) (d : RefDict) (x : String)
    (h : x ∈ refKeys (refStepArxivAscl as ac w l d)) :
    x ∈ refKeys d ∨
      ((x = "arxiv" ∨ x = "ascl") ∧
        (l.contains "ARXIV" = true ∨ l.contains "ASCL" = true)) := by
  unfold refStepArxivAscl at h
  split at h
  case isTrue htag =>
    have htag2 : l.contains "ARXIV" = true ∨ l.contains "ASCL" = true := by
      rcases Bool.or_eq_true_iff.mp htag with h1 | h1
      · exact Or.inl h1
      · exact Or.inr h1
    split at h
    case isTrue hlen =>
      rcases mem_refKeys_dictSet_sub _ _ _ _ h with h | rfl
      · exact Or.inl h
      · rcases identifier_tag as ac w l with ht | ht | ht
        · exact Or.inr ⟨Or.inl ht, htag2⟩
        · exact Or.inr ⟨Or.inr ht, htag2⟩
        · rw [ht] at hlen
          simp at hlen
    case isFalse => exact Or.inl h
  case isFalse => exact Or.inl h

theorem refStepIssn_preserve (w l : List String) (d : RefDict) (x : String)
    (h : x ∈ refKeys d) : x ∈ refKeys (refStepIssn w l d) := by
  unfold refStepIssn
  split
  · exact mem_refKeys_dictSet_preserve _ _ _ _ h
  · exact h

theorem refStepIssn_sub (w l : List String) (d : RefDict) (x : String)
    (h : x ∈ refKeys (refStepIssn w l d)) :
    x ∈ refKeys d ∨ (x = "ISSN" ∧ l.contains "ISSN" = true) := by
  unfold refStepIssn at h
  split at h
  · rcases mem_refKeys_dictSet_sub _ _ _ _ h with h | rfl
    · exact Or.inl h
    · exact Or.inr ⟨rfl, by assumption⟩
  · exact Or.inl h

theorem refStepJournal_preserve (w l : List String) (d : RefDict) (x : String)
    (h : x ∈ refKeys d) : x ∈ refKeys (refStepJournal w l d) := by
  unfold refStepJournal
  split
  · exact mem_refKeys_dictSet_preserve _ _ _ _ h
  · exact h

theorem refStepJournal_sub (w l : List String) (d : RefDict) (x : String)
    (h : x ∈ refKeys (refStepJournal w l d)) :
    x ∈ refKeys d ∨ (x = "journal" ∧ l.contains "JOURNAL" = true) := by
  unfold refStepJournal at h
  split at h
  · rcases mem_refKeys_dictSet_sub _ _ _ _ h with h | rfl
    · exact Or.inl h
    · exact Or.inr ⟨rfl, by assumption⟩
  · exact Or.inl h

theorem refStepTitle_preserve (w l : List String) (d : RefDict) (x : String)
    (h : x ∈ refKeys d) : x ∈ refKeys (refStepTitle w l d) := by
  unfold refStepTitle
  split
  · exact mem_refKeys_dictSet_preserve _ _ _ _ h
  · exact h

theorem refStepTitle_sub (w l : List String) (d : RefDict) (x : String)
    (h : x ∈ refKeys (refStepTitle w l d)) :
    x ∈ refKeys d ∨ (x = "title" ∧ l.contains "TITLE" = true) := by
  unfold refStepTitle at h
  split at h
  · rcases mem_refKeys_dictSet_sub _ _ _ _ h with h | rfl
    · exact Or.inl h
    · exact Or.inr ⟨rfl, by assumption⟩
  · exact Or.inl h

theorem reference_keys_characterization (ed : String → String)
    (as ac : String → Option String) (refstr : String)
    (words labels : List String) (x : String)
    (h : x ∈ refKeys (reference ed as ac refstr words labels)) :
    x = "authors" ∨ x = "refstr" ∨
    (x = "year" ∧ labels.contains "YEAR" = true) ∨
    (x = "volume" ∧ labels.contains "VOLUME" = true) ∨
    (x = "page" ∧ labels.contains "PAGE" = true) ∨
    (x = "issue" ∧ labels.contains "ISSUE" = true) ∨
    ((x = "doi" ∨ x = "arxiv" ∨ x = "ascl") ∧ labels.contains "DOI" = true) ∨
    ((x = "arxiv" ∨ x = "ascl") ∧
      (labels.contains "ARXIV" = true ∨ labels.contains "ASCL" = true)) ∨
    (x = "ISSN" ∧ labels.contains "ISSN" = true) ∨
    (x = "journal" ∧ labels.contains "JOURNAL" = true) ∨
    (x = "title" ∧ labels.contains "TITLE" = true) := by
  unfold reference at h
  rcases mem_refKeys_dictSet_sub _ _ _ _ h with h | rfl
  swap
  · exact Or.inr (Or.inl rfl)
  rcases refStepTitle_sub _ _ _ _ h with h | hx
  swap
  · exact Or.inr (Or.inr (Or.inr (Or.inr (Or.inr (Or.inr (Or.inr (Or.inr (Or.inr
      (Or.inr hx)))))))))
  rcases refStepJournal_sub _ _ _ _ h with h | hx
  swap
  · exact Or.inr (Or.inr (Or.inr (Or.inr (Or.inr (Or.inr (Or.inr (Or.inr (Or.inr
      (Or.inl hx)))))))))
  rcases refStepIssn_sub _ _ _ _ h with h | hx
  swap
  · exact Or.inr (Or.inr (Or.inr (Or.inr (Or.inr (Or.inr (Or.inr (Or.inr
      (Or.inl hx))))))))
  rcases refStepArxivAscl_sub _ _ _ _ _ _ h with h | hx
  swap
  · exact Or.inr (Or.inr (Or.inr (Or.inr (Or.inr (Or.inr (Or.inr (Or.inl hx)))))))
  rcases refStepDoi_sub _ _ _ _ _ _ _ h with h | hx
  swap
  · exact Or.inr (Or.inr (Or.inr (Or.inr (Or.inr (Or.inr (Or.inl hx))))))
  rcases refStepIssue_sub _ _ _ _ h with h | hx
  swap
  · exact Or.inr (Or.inr (Or.inr (Or.inr (Or.inr (Or.inl hx)))))
  rcases refStepPage_sub _ _ _ _ h with h | hx
  swap
  · exact Or.inr (Or.inr (Or.inr (Or.inr (Or.inl hx))))
  rcases refStepVolume_sub _ _ _ _ h with h | hx
  swap
  · exact Or.inr (Or.inr (Or.inr (Or.inl hx)))
  rcases refStepYear_sub _ _ _ _ h with h | hx
  swap
  · exact Or.inr (Or.inr (Or.inl hx))
  rcases mem_refKeys_dictSet_sub _ _ _ _ h with h | rfl
  · simp [refKeys] at h
  · exact Or.inl rfl

/-- C2 counterexample: on words ["2001"], labels ["YEAR"] the assembled
record is {authors: "", year: "2001", refstr: "x"} — the key 'authors' is
present (with an empty value) although no label of this reference is an
author tag, so it is false that every key is present only when its
source label/segment was found. -/
theorem C2_reference_counterexample :
    reference (fun s => s) (fun _ => none) (fun _ => none) "x" ["2001"] ["YEAR"]
      = [("authors", ""), ("year", "2001"), ("refstr", "x")] ∧
    (∀ l ∈ (["YEAR"] : List String), AUTHOR_TAGS.contains l = false) :=
  ⟨rfl, by decide⟩

/-- C2 amended: the record returned by reference contains only keys from
{authors, year, volume, page, issue, doi, arxiv, ascl, ISSN, journal,
title, refstr}; 'authors' and 'refstr' are always present ('authors'
possibly as the empty string); every other key is present only when its
source label was found — year/volume/page/issue/ISSN/journal/title
require their label, doi requires a DOI label, and arxiv/ascl require an
ARXIV, ASCL or (mislabelled) DOI label. -/
theorem C2_reference_keys (ed : String → String) (as ac : String → Option String)
    (refstr : String) (words labels : List String) :
    (∀ x ∈ refKeys (reference ed as ac refstr words labels),
      x ∈ (["authors", "year", "volume", "page", "issue", "doi", "arxiv", "ascl",
            "ISSN", "journal", "title", "refstr"] : List String)) ∧
    "authors" ∈ refKeys (reference ed as ac refstr words labels) ∧
    "refstr" ∈ refKeys (reference ed as ac refstr words labels) ∧
    ("year" ∈ refKeys (reference ed as ac refstr words labels) →
      labels.contains "YEAR" = true) ∧
    ("volume" ∈ refKeys (reference ed as ac refstr words labels) →
      labels.contains "VOLUME" = true) ∧
    ("page" ∈ refKeys (reference ed as ac refstr words labels) →
      labels.contains "PAGE" = true) ∧
    ("issue" ∈ refKeys (reference ed as ac refstr words labels) →
      labels.contains "ISSUE" = true) ∧
    ("doi" ∈ refKeys (reference ed as ac refstr words labels) →
      labels.contains "DOI" = true) ∧
    ("arxiv" ∈ refKeys (reference ed as ac refstr words labels) →
      labels.contains "ARXIV" = true ∨ labels.contains "ASCL" = true ∨
        labels.contains "DOI" = true) ∧
    ("ascl" ∈ refKeys (reference ed as ac refstr words labels) →
      labels.contains "ARXIV" = true ∨ labels.contains "ASCL" = true ∨
        labels.contains "DOI" = true) ∧
    ("ISSN" ∈ refKeys (reference ed as ac refstr words labels) →
      labels.contains "ISSN" = true) ∧
    ("journal" ∈ refKeys (reference ed as ac refstr words labels) →
      labels.contains "JOURNAL" = true) ∧
    ("title" ∈ refKeys (reference ed as ac refstr words labels) →
      labels.contains "TITLE" = true) := by
  refine ⟨?_, ?_, ?_, ?_, ?_, ?_, ?_, ?_, ?_, ?_, ?_, ?_, ?_⟩
  · intro x hx
    rcases reference_keys_characterization ed as ac refstr words labels x hx with
      h | h | h | h | h | h | h | h | h | h | h
    all_goals first
      | (rw [h]; decide)
      | (rw [h.1]; decide)
      | (rcases h.1 with h1 | h1 | h1 <;> rw [h1] <;> decide)
      | (rcases h.1 with h1 | h1 <;> rw [h1] <;> decide)
  · unfold reference
    exact mem_refKeys_dictSet_preserve _ _ _ _
      (refStepTitle_preserve _ _ _ _
        (refStepJournal_preserve _ _ _ _
          (refStepIssn_preserve _ _ _ _
            (refStepArxivAscl_preserve _ _ _ _ _ _
              (refStepDoi_preserve _ _ _ _ _ _ _
                (refStepIssue_preserve _ _ _ _
                  (refStepPage_preserve _ _ _ _
                    (refStepVolume_preserve _ _ _ _
                      (refStepYear_preserve _ _ _ _
                        (mem_refKeys_dictSet_self _ _ _))))))))))
  · unfold reference
    exact mem_refKeys_dictSet_self _ _ _
  all_goals intro hk
  all_goals rcases reference_keys_characterization ed as ac refstr words labels _ hk with
    h | h | h | h | h | h | h | h | h | h | h
  all_goals first
    | exact h.2
    | exact absurd h (by decide)
    | exact absurd h.1 (by decide)
    | exact Or.inr (Or.inr h.2)
    | (rcases h.2 with hc | hc <;> first
        | exact Or.inl hc
        | exact Or.inr (Or.inl hc))

/-- witness for C2: the year implication at a concrete record. -/
theorem C2_reference_keys_witness :
    (["YEAR"] : List String).contains "YEAR" = true :=
  (C2_reference_keys (fun s => s) (fun _ => none) (fun _ => none) "x" ["2001"]
    ["YEAR"]).2.2.2.1 (by decide)

/-- C1 counterexample: at a concrete token and configuration the feature
vector built by get_data_features has 74 entries (35 core entries plus
blocks of 4, 4, 4, 12, 11 and 4), not the 70 stated by the claim. -/
theorem C1_feature_length_counterexample :
    (get_data_features ⟨[], fun _ => false⟩ ["a"] 0 [] {}).length = 74 ∧
    (74 : ℕ) ≠ 70 :=
  ⟨rfl, by decide⟩

/-- C1 amended: for every configuration, token list, index, label
sequence and segmentation dictionary, get_data_features returns a vector
of exactly 74 elements in a fixed field order (35 core entries, then the
author, title, journal, identifying-word, punctuation and editor blocks),
and the length is the same whether true labels are supplied (training)
or only the segmentation dictionary is (inference). -/
theorem C1_feature_vector_length (cfg : CRFConfig) (ref_data : List String)
    (index : ℕ) (ref_label : List String) (segment_dict : SegmentDict) :
    (get_data_features cfg ref_data index ref_label segment_dict).length = 74 ∧
    (get_data_features cfg ref_data index ref_label segment_dict).length =
      (get_data_features cfg ref_data index [] segment_dict).length :=
  ⟨rfl, rfl⟩
